import Mathlib

/-!
# pciemu: register / DMA / IRQ emulation core

A shallow embedding of `src/hw/pciemu/{dma,irq,mmio,pciemu}.c` and of
`include/hw/pciemu_hw.h`, followed by the properties proved about it.

Conventions of the embedding.

* Every C function that mutates `PCIEMUDevice *dev` becomes a function
  `PCIEMUDevice → PCIEMUDevice`; the `Error **errp` arguments, which the code
  only passes on, are dropped, and so is the field `MemoryRegion mmio`, which
  the code only hands to the emulator in `pciemu_mmio_init`.
* `uint64_t`, `dma_addr_t`, `hwaddr`, `unsigned int` values are natural numbers.
  The only subtraction of the code, `addr - PCIEMU_HW_DMA_AREA_START`, is
  executed behind the guard `PCIEMU_HW_DMA_AREA_START <= addr`, so it never
  wraps.
* The hosting emulator is not part of the repository.  Its side of the device
  (`dev->pci_dev`) is the record `PCIDevice`: the answers it gives when asked,
  the bus memory, and a journal of the calls the device makes to it.
* The device record holds no memory behind `dma->buff`.  In the C object the
  array is followed by `mmio` and `reg[]`.  A bus transfer with
  `offset + len > 4096` runs past the array: a `pci_dma_read` then overwrites
  what lies there, a `pci_dma_write` sends what lies there to the bus.  The
  record cannot compute either, so the host record carries them as two
  unconstrained values: `reg_after_overrun` (what `reg[]` holds afterwards) and
  `behind` (the bytes found behind the array).  Nothing is proved about them.
* `IRQStatus` is a C union of `msi` and `pin`.  `pin.raised` lies on the first
  byte of `msi.msi_vectors[0].dev`, a back pointer that no function reads or
  writes, and every `msi_vectors[i].raised` lies behind that pointer.  The
  flags the code uses therefore never overlap, and the union is the pair of
  both members.
-/

namespace Pciemu

/-! ## include/hw/pciemu_hw.h -/

abbrev PCIEMU_HW_BAR0_REG_CNT : Nat := 4
abbrev PCIEMU_HW_BAR0_REG_0 : Nat := 0x00
abbrev PCIEMU_HW_BAR0_REG_1 : Nat := 0x08
abbrev PCIEMU_HW_BAR0_REG_2 : Nat := 0x10
abbrev PCIEMU_HW_BAR0_REG_3 : Nat := 0x18
abbrev PCIEMU_HW_BAR0_IRQ_0_RAISE : Nat := 0x20
abbrev PCIEMU_HW_BAR0_IRQ_0_LOWER : Nat := 0x28
abbrev PCIEMU_HW_BAR0_DMA_CFG_TXDESC_SRC : Nat := 0x30
abbrev PCIEMU_HW_BAR0_DMA_CFG_TXDESC_DST : Nat := 0x38
abbrev PCIEMU_HW_BAR0_DMA_CFG_TXDESC_LEN : Nat := 0x40
abbrev PCIEMU_HW_BAR0_DMA_CFG_CMD : Nat := 0x48
abbrev PCIEMU_HW_BAR0_DMA_DOORBELL_RING : Nat := 0x50
abbrev PCIEMU_HW_BAR0_START : Nat := PCIEMU_HW_BAR0_REG_0
abbrev PCIEMU_HW_BAR0_END : Nat := PCIEMU_HW_BAR0_DMA_DOORBELL_RING
abbrev PCIEMU_HW_DMA_ADDR_CAPABILITY : Nat := 32
abbrev PCIEMU_HW_DMA_AREA_START : Nat := 0x10000
abbrev PCIEMU_HW_DMA_AREA_SIZE : Nat := 0x1000
abbrev PCIEMU_HW_DMA_DIRECTION_TO_DEVICE : Nat := 0x1
abbrev PCIEMU_HW_DMA_DIRECTION_FROM_DEVICE : Nat := 0x2
abbrev PCIEMU_HW_IRQ_CNT : Nat := 1
abbrev PCIEMU_HW_IRQ_VECTOR_START : Nat := 0
abbrev PCIEMU_HW_IRQ_VECTOR_END : Nat := 0
abbrev PCIEMU_HW_IRQ_INTX : Nat := 0
abbrev PCIEMU_HW_IRQ_DMA_ENDED_VECTOR : Nat := 0

/-! ## dma.h, irq.h, pciemu.h : the data model -/

/-- The macro `DMA_BIT_MASK(n)` of dma.h, on 64-bit unsigned arithmetic. -/
def DMA_BIT_MASK (n : Nat) : Nat :=
  if n = 64 then 2 ^ 64 - 1 else ((2 ^ n) % 2 ^ 64 + 2 ^ 64 - 1) % 2 ^ 64

abbrev PCIEMU_IRQ_MAX_VECTORS : Nat := 32

structure DMATransferDesc where
  src : Nat
  dst : Nat
  len : Nat
  deriving DecidableEq, Repr

structure DMAConfig where
  txdesc : DMATransferDesc
  cmd : Nat
  mask : Nat
  deriving DecidableEq, Repr

inductive DMAStatus where
  | DMA_STATUS_IDLE
  | DMA_STATUS_EXECUTING
  | DMA_STATUS_OFF
  deriving DecidableEq, Repr

open DMAStatus

structure DMAEngine where
  config : DMAConfig
  status : DMAStatus
  buff : Fin PCIEMU_HW_DMA_AREA_SIZE → Nat

/-- One entry of `msi_vectors`; the back pointer `dev` of the C struct is never
read or written and is left out. -/
structure MSIVector where
  raised : Bool
  deriving DecidableEq, Repr

structure IRQStatusMSI where
  msi_vectors : Fin PCIEMU_IRQ_MAX_VECTORS → MSIVector

structure IRQStatusPin where
  raised : Bool
  deriving DecidableEq, Repr

structure IRQStatus where
  msi : IRQStatusMSI
  pin : IRQStatusPin

/-- A call the device makes to a primitive of the hosting emulator.  For the
two bus transfers `off` is the offset into `dma->buff` of the buffer pointer
that is passed. -/
inductive Call where
  | pci_dma_read (addr off len : Nat)
  | pci_dma_write (addr off len : Nat)
  | msi_notify (vector : Nat)
  | pci_set_irq (level : Nat)
  | pci_config_set_interrupt_pin (pin : Nat)
  | msi_init (nr_vectors : Nat)
  | memory_region_init
  | pci_register_bar (bar : Nat)
  | msi_uninit
  deriving DecidableEq, Repr

/-- A line handed to `qemu_log_mask(LOG_GUEST_ERROR, ...)`. -/
inductive LogLine where
  | masked_differs (masked addr : Nat)
  | dst_out_of_bounds
  | src_out_of_bounds
  | pci_dma_read_err (err : Int)
  | pci_dma_write_err (err : Int)
  | msi_init_error
  deriving DecidableEq, Repr

/-- Modelled from the spec: the hosting emulator's side of the device, which
the repository only declares (section 6, "consumed from the environment").
`msi_enabled` is what `msi_enabled(&dev->pci_dev)` answers, `msi_init_ret` what
`msi_init` returns, `mem` the bus address space (one byte per address),
`dma_read_ret addr len` and `dma_write_ret addr len` the status the bus
transfer primitive reports, `calls` the journal of calls made so far (oldest
first) and `log` the lines logged so far.  The last two fields stand for the
memory of the emulator behind `dma->buff`: `reg_after_overrun addr off len` is
what `reg[]` holds after a `pci_dma_read(addr, dma->buff + off, len)` that ran
past the array, and `behind i`, for `i ≥ 4096`, is the byte at `dma->buff + i`
that a `pci_dma_write` running past the array sends to the bus. -/
structure PCIDevice where
  msi_enabled : Bool
  msi_init_ret : Int
  mem : Nat → Nat
  dma_read_ret : Nat → Nat → Int
  dma_write_ret : Nat → Nat → Int
  calls : List Call
  log : List LogLine
  reg_after_overrun : Nat → Nat → Nat → Fin PCIEMU_HW_BAR0_REG_CNT → Nat
  behind : Nat → Nat

structure PCIEMUDevice where
  pci_dev : PCIDevice
  irq : IRQStatus
  dma : DMAEngine
  reg : Fin PCIEMU_HW_BAR0_REG_CNT → Nat

/-! ## The primitives of the hosting emulator -/

/-- Append a call to the journal. -/
def PCIDevice.journal (p : PCIDevice) (c : Call) : PCIDevice :=
  { p with calls := p.calls ++ [c] }

/-- Host primitive `qemu_log_mask`: a diagnostic sink. -/
def qemu_log_mask (dev : PCIEMUDevice) (l : LogLine) : PCIEMUDevice :=
  { dev with pci_dev := { dev.pci_dev with log := dev.pci_dev.log ++ [l] } }

/-- Host primitive `msi_enabled`. -/
def msi_enabled (p : PCIDevice) : Bool := p.msi_enabled

/-- Host primitive `msi_notify`. -/
def msi_notify (dev : PCIEMUDevice) (vector : Nat) : PCIEMUDevice :=
  { dev with pci_dev := dev.pci_dev.journal (Call.msi_notify vector) }

/-- Host primitive `pci_set_irq`. -/
def pci_set_irq (dev : PCIEMUDevice) (level : Nat) : PCIEMUDevice :=
  { dev with pci_dev := dev.pci_dev.journal (Call.pci_set_irq level) }

/-- Byte `i` of `dma->buff`, when `i` is an index of the array. -/
def buff_at (b : Fin PCIEMU_HW_DMA_AREA_SIZE → Nat) (i : Nat) : Option Nat :=
  if h : i < PCIEMU_HW_DMA_AREA_SIZE then some (b ⟨i, h⟩) else none

/-- Modelled from the spec: the bus transfer primitive in the direction bus to
buffer, `pci_dma_read(&dev->pci_dev, addr, dma->buff + off, len)`.  It copies
`len` bytes from bus address `addr` to the memory at `dma->buff + off` and
reports a status.  The bytes with an index below 4096 land in the array.  When
`off + len > 4096` the copy runs past the array and overwrites what follows it
in the C object, `reg[]` included: the registers then hold
`reg_after_overrun addr off len`. -/
def pci_dma_read (dev : PCIEMUDevice) (addr off len : Nat) : PCIEMUDevice × Int :=
  ({ dev with
      pci_dev := dev.pci_dev.journal (Call.pci_dma_read addr off len)
      dma := { dev.dma with
        buff := fun k =>
          if off ≤ k.val ∧ k.val < off + len then dev.pci_dev.mem (addr + (k.val - off))
          else dev.dma.buff k }
      reg :=
        if off + len ≤ PCIEMU_HW_DMA_AREA_SIZE then dev.reg
        else dev.pci_dev.reg_after_overrun addr off len },
   dev.pci_dev.dma_read_ret addr len)

/-- Modelled from the spec: the bus transfer primitive in the direction buffer
to bus, `pci_dma_write(&dev->pci_dev, addr, dma->buff + off, len)`.  It copies
`len` bytes from the memory at `dma->buff + off` to bus address `addr` and
reports a status.  A byte with an index below 4096 comes from the array; a
byte with an index `i ≥ 4096` is fetched from behind the array and is
`behind i`.  The device itself is only read. -/
def pci_dma_write (dev : PCIEMUDevice) (addr off len : Nat) : PCIEMUDevice × Int :=
  ({ dev with
      pci_dev := { dev.pci_dev.journal (Call.pci_dma_write addr off len) with
        mem := fun a =>
          if addr ≤ a ∧ a < addr + len then
            match buff_at dev.dma.buff (off + (a - addr)) with
            | some v => v
            | none => dev.pci_dev.behind (off + (a - addr))
          else dev.pci_dev.mem a } },
   dev.pci_dev.dma_write_ret addr len)

/-! ## irq.c -/

def pciemu_irq_init_msi (dev : PCIEMUDevice) : PCIEMUDevice :=
  let dev1 := { dev with pci_dev := dev.pci_dev.journal (Call.msi_init PCIEMU_HW_IRQ_CNT) }
  if dev.pci_dev.msi_init_ret ≠ 0 then qemu_log_mask dev1 LogLine.msi_init_error
  else dev1

def pciemu_irq_init_intx (dev : PCIEMUDevice) : PCIEMUDevice :=
  { dev with
    pci_dev := dev.pci_dev.journal (Call.pci_config_set_interrupt_pin (PCIEMU_HW_IRQ_INTX + 1)) }

def pciemu_irq_raise_intx (dev : PCIEMUDevice) : PCIEMUDevice :=
  pci_set_irq { dev with irq := { dev.irq with pin := { raised := true } } } 1

def pciemu_irq_raise_msi (dev : PCIEMUDevice) (vector : Nat) : PCIEMUDevice :=
  if h : vector ≥ PCIEMU_IRQ_MAX_VECTORS then dev
  else
    let v := Function.update dev.irq.msi.msi_vectors ⟨vector, Nat.lt_of_not_le h⟩
      { raised := true }
    msi_notify { dev with irq := { dev.irq with msi := { msi_vectors := v } } } vector

def pciemu_irq_lower_intx (dev : PCIEMUDevice) : PCIEMUDevice :=
  pci_set_irq { dev with irq := { dev.irq with pin := { raised := false } } } 0

def pciemu_irq_lower_msi (dev : PCIEMUDevice) (vector : Nat) : PCIEMUDevice :=
  if h : vector ≥ PCIEMU_IRQ_MAX_VECTORS then dev
  else if !(dev.irq.msi.msi_vectors ⟨vector, Nat.lt_of_not_le h⟩).raised then dev
  else
    let v := Function.update dev.irq.msi.msi_vectors ⟨vector, Nat.lt_of_not_le h⟩
      { raised := false }
    { dev with irq := { dev.irq with msi := { msi_vectors := v } } }

def pciemu_irq_raise (dev : PCIEMUDevice) (vector : Nat) : PCIEMUDevice :=
  if !msi_enabled dev.pci_dev then pciemu_irq_raise_intx dev
  else pciemu_irq_raise_msi dev vector

def pciemu_irq_lower (dev : PCIEMUDevice) (vector : Nat) : PCIEMUDevice :=
  if !msi_enabled dev.pci_dev then pciemu_irq_lower_intx dev
  else pciemu_irq_lower_msi dev vector

/-- The loop `for (i = VECTOR_START; i <= VECTOR_END; ++i) pciemu_irq_lower(dev, i)`. -/
def pciemu_irq_reset (dev : PCIEMUDevice) : PCIEMUDevice :=
  (List.range (PCIEMU_HW_IRQ_VECTOR_END + 1 - PCIEMU_HW_IRQ_VECTOR_START)).foldl
    (fun d k => pciemu_irq_lower d (PCIEMU_HW_IRQ_VECTOR_START + k)) dev

def pciemu_irq_init (dev : PCIEMUDevice) : PCIEMUDevice :=
  pciemu_irq_init_msi (pciemu_irq_init_intx dev)

/-- Modelled from the spec: the host primitive `msi_uninit`, "releasing any
mode-specific external resources", which the spec delegates to the external
collaborator.  The call is recorded in the journal. -/
def msi_uninit (dev : PCIEMUDevice) : PCIEMUDevice :=
  { dev with pci_dev := dev.pci_dev.journal Call.msi_uninit }

def pciemu_irq_fini (dev : PCIEMUDevice) : PCIEMUDevice :=
  msi_uninit (pciemu_irq_reset dev)

/-! ## dma.c -/

def pciemu_dma_addr_mask (dev : PCIEMUDevice) (addr : Nat) : PCIEMUDevice × Nat :=
  let masked := addr &&& dev.dma.config.mask
  if masked ≠ addr then (qemu_log_mask dev (LogLine.masked_differs masked addr), masked)
  else (dev, masked)

def pciemu_dma_inside_device_boundaries (addr : Nat) : Bool :=
  decide (PCIEMU_HW_DMA_AREA_START ≤ addr) &&
    decide (addr ≤ PCIEMU_HW_DMA_AREA_START + PCIEMU_HW_DMA_AREA_SIZE)

def pciemu_dma_execute (dev : PCIEMUDevice) : PCIEMUDevice :=
  let dma := dev.dma
  if dma.config.cmd ≠ PCIEMU_HW_DMA_DIRECTION_TO_DEVICE ∧
      dma.config.cmd ≠ PCIEMU_HW_DMA_DIRECTION_FROM_DEVICE then dev
  else if dma.config.cmd = PCIEMU_HW_DMA_DIRECTION_TO_DEVICE then
    if !pciemu_dma_inside_device_boundaries dma.config.txdesc.dst then
      qemu_log_mask dev LogLine.dst_out_of_bounds
    else
      let r := pciemu_dma_addr_mask dev dma.config.txdesc.src
      let src := r.2
      let dst := dma.config.txdesc.dst - PCIEMU_HW_DMA_AREA_START
      let t := pci_dma_read r.1 src dst dma.config.txdesc.len
      let err := t.2
      let dev3 := if err ≠ 0 then qemu_log_mask t.1 (LogLine.pci_dma_read_err err) else t.1
      pciemu_irq_raise dev3 PCIEMU_HW_IRQ_DMA_ENDED_VECTOR
  else
    if !pciemu_dma_inside_device_boundaries dma.config.txdesc.src then
      qemu_log_mask dev LogLine.src_out_of_bounds
    else
      let src := dma.config.txdesc.src - PCIEMU_HW_DMA_AREA_START
      let r := pciemu_dma_addr_mask dev dma.config.txdesc.dst
      let dst := r.2
      let t := pci_dma_write r.1 dst src dma.config.txdesc.len
      let err := t.2
      let dev3 := if err ≠ 0 then qemu_log_mask t.1 (LogLine.pci_dma_write_err err) else t.1
      pciemu_irq_raise dev3 PCIEMU_HW_IRQ_DMA_ENDED_VECTOR

def pciemu_dma_config_txdesc_src (dev : PCIEMUDevice) (src : Nat) : PCIEMUDevice :=
  let status := dev.dma.status
  if status = DMA_STATUS_IDLE then
    { dev with dma := { dev.dma with config := { dev.dma.config with
        txdesc := { dev.dma.config.txdesc with src := src } } } }
  else dev

def pciemu_dma_config_txdesc_dst (dev : PCIEMUDevice) (dst : Nat) : PCIEMUDevice :=
  let status := dev.dma.status
  if status = DMA_STATUS_IDLE then
    { dev with dma := { dev.dma with config := { dev.dma.config with
        txdesc := { dev.dma.config.txdesc with dst := dst } } } }
  else dev

def pciemu_dma_config_txdesc_len (dev : PCIEMUDevice) (size : Nat) : PCIEMUDevice :=
  let status := dev.dma.status
  if status = DMA_STATUS_IDLE then
    { dev with dma := { dev.dma with config := { dev.dma.config with
        txdesc := { dev.dma.config.txdesc with len := size } } } }
  else dev

def pciemu_dma_config_cmd (dev : PCIEMUDevice) (cmd : Nat) : PCIEMUDevice :=
  let status := dev.dma.status
  if status = DMA_STATUS_IDLE then
    { dev with dma := { dev.dma with config := { dev.dma.config with cmd := cmd } } }
  else dev

/-- The primitive `qatomic_cmpxchg(ptr, old, new)` on the status word: the new
content of the word and the value returned (the content found). -/
def qatomic_cmpxchg (cur old new : DMAStatus) : DMAStatus × DMAStatus :=
  (if cur = old then new else cur, cur)

def pciemu_dma_doorbell_ring (dev : PCIEMUDevice) : PCIEMUDevice :=
  let x := qatomic_cmpxchg dev.dma.status DMA_STATUS_IDLE DMA_STATUS_EXECUTING
  let dev1 := { dev with dma := { dev.dma with status := x.1 } }
  let status := x.2
  if status = DMA_STATUS_EXECUTING then dev1
  else
    let dev2 := pciemu_dma_execute dev1
    { dev2 with dma := { dev2.dma with status := DMA_STATUS_IDLE } }

def pciemu_dma_reset (dev : PCIEMUDevice) : PCIEMUDevice :=
  { dev with dma :=
    { config := { txdesc := { src := 0, dst := 0, len := 0 }, cmd := 0,
                  mask := dev.dma.config.mask }
      status := DMA_STATUS_IDLE
      buff := fun _ => 0 } }

def pciemu_dma_init (dev : PCIEMUDevice) : PCIEMUDevice :=
  let dev1 := pciemu_dma_reset dev
  { dev1 with dma := { dev1.dma with config := { dev1.dma.config with
      mask := DMA_BIT_MASK PCIEMU_HW_DMA_ADDR_CAPABILITY } } }

def pciemu_dma_fini (dev : PCIEMUDevice) : PCIEMUDevice :=
  let dev1 := pciemu_dma_reset dev
  { dev1 with dma := { dev1.dma with status := DMA_STATUS_OFF } }

/-! ## mmio.c -/

def pciemu_mmio_valid_access (addr : Nat) (_size : Nat) : Bool :=
  decide (PCIEMU_HW_BAR0_START ≤ addr) && decide (addr ≤ PCIEMU_HW_BAR0_END)

/-- The assignment `dev->reg[i] = val`. -/
def set_reg (dev : PCIEMUDevice) (i : Fin PCIEMU_HW_BAR0_REG_CNT) (val : Nat) : PCIEMUDevice :=
  { dev with reg := Function.update dev.reg i val }

def pciemu_mmio_read (dev : PCIEMUDevice) (addr : Nat) (size : Nat) : Nat :=
  let val := 2 ^ 64 - 1
  if !pciemu_mmio_valid_access addr size then val
  else if addr = PCIEMU_HW_BAR0_REG_0 then dev.reg 0
  else if addr = PCIEMU_HW_BAR0_REG_1 then dev.reg 1
  else if addr = PCIEMU_HW_BAR0_REG_2 then dev.reg 2
  else if addr = PCIEMU_HW_BAR0_REG_3 then dev.reg 3
  else val

def pciemu_mmio_write (dev : PCIEMUDevice) (addr : Nat) (val : Nat) (size : Nat) :
    PCIEMUDevice :=
  if !pciemu_mmio_valid_access addr size then dev
  else if addr = PCIEMU_HW_BAR0_REG_0 then set_reg dev 0 val
  else if addr = PCIEMU_HW_BAR0_REG_1 then set_reg dev 1 val
  else if addr = PCIEMU_HW_BAR0_REG_2 then set_reg dev 2 val
  else if addr = PCIEMU_HW_BAR0_REG_3 then set_reg dev 3 val
  else if addr = PCIEMU_HW_BAR0_IRQ_0_RAISE then pciemu_irq_raise dev 0
  else if addr = PCIEMU_HW_BAR0_IRQ_0_LOWER then pciemu_irq_lower dev 0
  else if addr = PCIEMU_HW_BAR0_DMA_CFG_TXDESC_SRC then pciemu_dma_config_txdesc_src dev val
  else if addr = PCIEMU_HW_BAR0_DMA_CFG_TXDESC_DST then pciemu_dma_config_txdesc_dst dev val
  else if addr = PCIEMU_HW_BAR0_DMA_CFG_TXDESC_LEN then pciemu_dma_config_txdesc_len dev val
  else if addr = PCIEMU_HW_BAR0_DMA_CFG_CMD then pciemu_dma_config_cmd dev val
  else if addr = PCIEMU_HW_BAR0_DMA_DOORBELL_RING then pciemu_dma_doorbell_ring dev
  else dev

/-- The loop `for (i = 0; i < PCIEMU_HW_BAR0_REG_CNT; ++i) dev->reg[i] = 0`. -/
def pciemu_mmio_reset (dev : PCIEMUDevice) : PCIEMUDevice :=
  (List.finRange PCIEMU_HW_BAR0_REG_CNT).foldl (fun d i => set_reg d i 0) dev

def pciemu_mmio_init (dev : PCIEMUDevice) : PCIEMUDevice :=
  { dev with pci_dev :=
    (dev.pci_dev.journal Call.memory_region_init).journal (Call.pci_register_bar 0) }

def pciemu_mmio_fini (dev : PCIEMUDevice) : PCIEMUDevice :=
  pciemu_mmio_reset dev

/-! ## pciemu.c -/

def pciemu_reset (dev : PCIEMUDevice) : PCIEMUDevice :=
  pciemu_mmio_reset (pciemu_dma_reset (pciemu_irq_reset dev))

def pciemu_device_init (dev : PCIEMUDevice) : PCIEMUDevice :=
  pciemu_mmio_init (pciemu_dma_init (pciemu_irq_init dev))

def pciemu_device_reset (dev : PCIEMUDevice) : PCIEMUDevice :=
  pciemu_reset dev

def pciemu_device_fini (dev : PCIEMUDevice) : PCIEMUDevice :=
  pciemu_mmio_fini (pciemu_dma_fini (pciemu_irq_fini dev))

/-! ## The doorbell, split at its atomic accesses -/

/-- The first statement of `pciemu_dma_doorbell_ring`, its only read of the
status word: the compare-and-swap.  It gives the device it leaves and the
status it found. -/
def ring_begin (dev : PCIEMUDevice) : PCIEMUDevice × DMAStatus :=
  let x := qatomic_cmpxchg dev.dma.status DMA_STATUS_IDLE DMA_STATUS_EXECUTING
  ({ dev with dma := { dev.dma with status := x.1 } }, x.2)

/-- The last statement of `pciemu_dma_doorbell_ring`:
`qatomic_set(&dev->dma.status, DMA_STATUS_IDLE)`. -/
def ring_store (dev : PCIEMUDevice) : PCIEMUDevice :=
  { dev with dma := { dev.dma with status := DMA_STATUS_IDLE } }

/-- The statements of `pciemu_dma_doorbell_ring` after the compare-and-swap, run
on the device `dev1` found at that time, `status` being what the
compare-and-swap returned. -/
def ring_rest (dev1 : PCIEMUDevice) (status : DMAStatus) : PCIEMUDevice :=
  if status = DMA_STATUS_EXECUTING then dev1
  else ring_store (pciemu_dma_execute dev1)

/-! ## Sequences of operations on a device -/

/-- An operation the environment runs on the device, one at a time: a register
read, a register write (configuration writes and doorbells included), a device
reset, the device finalisation. -/
inductive Op where
  | read (addr size : Nat)
  | write (addr val size : Nat)
  | reset
  | fini
  deriving DecidableEq, Repr

/-- One operation run to completion.  `pciemu_mmio_read` returns a value and
leaves the device as it is. -/
def step (dev : PCIEMUDevice) : Op → PCIEMUDevice
  | Op.read _ _ => dev
  | Op.write addr val size => pciemu_mmio_write dev addr val size
  | Op.reset => pciemu_device_reset dev
  | Op.fini => pciemu_device_fini dev

/-- A finite sequence of operations, run in order. -/
def run (dev : PCIEMUDevice) : List Op → PCIEMUDevice
  | [] => dev
  | o :: ops => run (step dev o) ops

/-- The environment changes what `msi_enabled(&dev->pci_dev)` answers (the
guest sets or clears the enable bit of the capability). -/
def host_answers (dev : PCIEMUDevice) (b : Bool) : PCIEMUDevice :=
  { dev with pci_dev := { dev.pci_dev with msi_enabled := b } }

/-- Whether a call to the host is a bus transfer. -/
def is_transfer : Call → Bool
  | Call.pci_dma_read _ _ _ => true
  | Call.pci_dma_write _ _ _ => true
  | _ => false

/-- The five register writes that configure and start one DMA transfer. -/
def dma_transfer (d : PCIEMUDevice) (src dst len cmd : Nat) : PCIEMUDevice :=
  pciemu_mmio_write
    (pciemu_mmio_write
      (pciemu_mmio_write (pciemu_mmio_write (pciemu_mmio_write d 0x30 src 8) 0x38 dst 8)
        0x40 len 8)
      0x48 cmd 8)
    0x50 1 8

/-! ## The effect of raise and lower, in closed form (used to state frame lemmas) -/

/-- The calls `pciemu_irq_raise(dev, vector)` makes to the host. -/
def raise_calls (msi : Bool) (vector : Nat) : List Call :=
  if msi then (if vector ≥ PCIEMU_IRQ_MAX_VECTORS then [] else [Call.msi_notify vector])
  else [Call.pci_set_irq 1]

/-- The calls `pciemu_irq_lower(dev, vector)` makes to the host. -/
def lower_calls (msi : Bool) : List Call :=
  if msi then [] else [Call.pci_set_irq 0]

/-- The interrupt state `pciemu_irq_raise(dev, vector)` leaves. -/
def raise_irq (msi : Bool) (irq : IRQStatus) (vector : Nat) : IRQStatus :=
  if msi then
    if h : vector ≥ PCIEMU_IRQ_MAX_VECTORS then irq
    else { irq with msi := ⟨Function.update irq.msi.msi_vectors ⟨vector, Nat.lt_of_not_le h⟩
      { raised := true }⟩ }
  else { irq with pin := { raised := true } }

/-- The interrupt state `pciemu_irq_lower(dev, vector)` leaves. -/
def lower_irq (msi : Bool) (irq : IRQStatus) (vector : Nat) : IRQStatus :=
  if msi then
    if h : vector ≥ PCIEMU_IRQ_MAX_VECTORS then irq
    else { irq with msi := ⟨Function.update irq.msi.msi_vectors ⟨vector, Nat.lt_of_not_le h⟩
      { raised := false }⟩ }
  else { irq with pin := { raised := false } }

/-! ## A concrete device, used to run the definitions -/

/-- A host whose bus memory holds `a % 256` at address `a`, with message
interrupts enabled and every transfer reported as successful. -/
def host0 : PCIDevice :=
  { msi_enabled := true
    msi_init_ret := 0
    mem := fun a => a % 256
    dma_read_ret := fun _ _ => 0
    dma_write_ret := fun _ _ => 0
    calls := []
    log := []
    reg_after_overrun := fun addr _ _ i => (addr + i.val) % 256
    behind := fun i => i % 7 }

/-- A device record before initialisation, with arbitrary (here non-zero)
content. -/
def dev0 : PCIEMUDevice :=
  { pci_dev := host0
    irq := { msi := { msi_vectors := fun _ => { raised := false } }, pin := { raised := false } }
    dma := { config := { txdesc := { src := 7, dst := 8, len := 9 }, cmd := 3, mask := 5 }
             status := DMA_STATUS_EXECUTING
             buff := fun k => k.val % 251 }
    reg := fun i => i.val + 1 }

/-- A device set up for a to-device transfer of 8 bytes from bus address
`0xaaaabeefbeef` (wider than the mask) to the start of the buffer. -/
def dev_to : PCIEMUDevice :=
  { dev0 with dma := { dev0.dma with
      config := { txdesc := { src := 0xaaaabeefbeef, dst := 0x10000, len := 8 }, cmd := 1,
                  mask := 0xffffffff }
      status := DMA_STATUS_IDLE } }

/-- A device set up for a from-device transfer of 8 bytes from buffer offset
`0x10` to bus address `0xaaaabbbb`, in pin mode. -/
def dev_from : PCIEMUDevice :=
  { dev0 with
    pci_dev := { host0 with msi_enabled := false }
    dma := { dev0.dma with
      config := { txdesc := { src := 0x10010, dst := 0xaaaabbbb, len := 8 }, cmd := 2,
                  mask := 0xffffffff }
      status := DMA_STATUS_IDLE } }

/-- The device `dev_to` with `dst` one byte behind the window `[0x10000, 0x11000]`. -/
def dev_oob : PCIEMUDevice :=
  { dev_to with dma := { dev_to.dma with
      config := { dev_to.dma.config with
        txdesc := { dev_to.dma.config.txdesc with dst := 0x11001 } } } }

/-- An initialised device after `pciemu_dma_fini`. -/
def dev_off : PCIEMUDevice := pciemu_dma_fini (pciemu_device_init dev0)

/-- The register writes of the end-to-end scenario of the spec (section 8),
on a device `d`: `src = 0xDEADBEEF`, `dst = 0x10000`, `len = 4`, `cmd = 1`,
then the doorbell with value `v`; `s1 .. s5` are the access sizes. -/
def end_to_end_writes (d : PCIEMUDevice) (v s1 s2 s3 s4 s5 : Nat) : PCIEMUDevice :=
  pciemu_mmio_write
    (pciemu_mmio_write
      (pciemu_mmio_write
        (pciemu_mmio_write (pciemu_mmio_write d 0x30 0xDEADBEEF s1) 0x38 0x10000 s2)
        0x40 4 s3)
      0x48 1 s4)
    0x50 v s5

/-- The device `dev` on a host that reports `r addr len` for `pci_dma_read` and
`w addr len` for `pci_dma_write`; everything else is as in `dev`. -/
def with_bus_status (dev : PCIEMUDevice) (r w : Nat → Nat → Int) : PCIEMUDevice :=
  { dev with pci_dev := { dev.pci_dev with dma_read_ret := r, dma_write_ret := w } }

/-- The device `dev0` after `pciemu_irq_raise(dev, 3)`: message mode, the flag
of vector 3 raised. -/
def dev_raised : PCIEMUDevice := pciemu_irq_raise dev0 3

/-- An initialised device whose host answers that message interrupts are not
enabled, after `pciemu_irq_raise(dev, 0)`: the pin is raised. -/
def dev_pin_raised : PCIEMUDevice :=
  pciemu_irq_raise (host_answers (pciemu_device_init dev0) false) 0

/-- The device `dev0` with the mask `DMA_BIT_MASK(n)`. -/
def dev_mask (n : Nat) : PCIEMUDevice :=
  { dev0 with dma := { dev0.dma with config := { dev0.dma.config with mask := DMA_BIT_MASK n } } }

/-- A sequence of operations used to run the theorems on: a debug raise, a
register write, a configured to-device transfer with its doorbell, a register
read and a device reset. -/
def ops0 : List Op :=
  [Op.write 0x20 7 8, Op.write 0x08 0xbb 8, Op.write 0x30 0xDEADBEEF 8,
    Op.write 0x38 0x10000 8, Op.write 0x40 4 8, Op.write 0x48 1 8, Op.write 0x50 1 8,
    Op.read 0x08 8, Op.reset]

/-! ## Properties -/

/-! ### What each primitive leaves alone -/

@[simp] theorem qemu_log_mask_fields (dev : PCIEMUDevice) (l : LogLine) :
    (qemu_log_mask dev l).irq = dev.irq ∧ (qemu_log_mask dev l).dma = dev.dma ∧
    (qemu_log_mask dev l).reg = dev.reg ∧
    (qemu_log_mask dev l).pci_dev.calls = dev.pci_dev.calls ∧
    (qemu_log_mask dev l).pci_dev.mem = dev.pci_dev.mem ∧
    (qemu_log_mask dev l).pci_dev.msi_enabled = dev.pci_dev.msi_enabled ∧
    (qemu_log_mask dev l).pci_dev.msi_init_ret = dev.pci_dev.msi_init_ret ∧
    (qemu_log_mask dev l).pci_dev.dma_read_ret = dev.pci_dev.dma_read_ret ∧
    (qemu_log_mask dev l).pci_dev.dma_write_ret = dev.pci_dev.dma_write_ret ∧
    (qemu_log_mask dev l).pci_dev.log = dev.pci_dev.log ++ [l] ∧
    (qemu_log_mask dev l).pci_dev.reg_after_overrun = dev.pci_dev.reg_after_overrun ∧
    (qemu_log_mask dev l).pci_dev.behind = dev.pci_dev.behind :=
  ⟨rfl, rfl, rfl, rfl, rfl, rfl, rfl, rfl, rfl, rfl, rfl, rfl⟩

@[simp] theorem pciemu_dma_addr_mask_fields (dev : PCIEMUDevice) (addr : Nat) :
    (pciemu_dma_addr_mask dev addr).2 = addr &&& dev.dma.config.mask ∧
    (pciemu_dma_addr_mask dev addr).1.irq = dev.irq ∧
    (pciemu_dma_addr_mask dev addr).1.dma = dev.dma ∧
    (pciemu_dma_addr_mask dev addr).1.reg = dev.reg ∧
    (pciemu_dma_addr_mask dev addr).1.pci_dev.calls = dev.pci_dev.calls ∧
    (pciemu_dma_addr_mask dev addr).1.pci_dev.mem = dev.pci_dev.mem ∧
    (pciemu_dma_addr_mask dev addr).1.pci_dev.msi_enabled = dev.pci_dev.msi_enabled ∧
    (pciemu_dma_addr_mask dev addr).1.pci_dev.msi_init_ret = dev.pci_dev.msi_init_ret ∧
    (pciemu_dma_addr_mask dev addr).1.pci_dev.dma_read_ret = dev.pci_dev.dma_read_ret ∧
    (pciemu_dma_addr_mask dev addr).1.pci_dev.dma_write_ret = dev.pci_dev.dma_write_ret ∧
    (pciemu_dma_addr_mask dev addr).1.pci_dev.reg_after_overrun =
      dev.pci_dev.reg_after_overrun ∧
    (pciemu_dma_addr_mask dev addr).1.pci_dev.behind = dev.pci_dev.behind := by
  simp only [pciemu_dma_addr_mask]
  split_ifs <;> exact ⟨rfl, rfl, rfl, rfl, rfl, rfl, rfl, rfl, rfl, rfl, rfl, rfl⟩

@[simp] theorem pci_dma_read_fields (dev : PCIEMUDevice) (addr off len : Nat) :
    (pci_dma_read dev addr off len).2 = dev.pci_dev.dma_read_ret addr len ∧
    (pci_dma_read dev addr off len).1.irq = dev.irq ∧
    (pci_dma_read dev addr off len).1.dma.config = dev.dma.config ∧
    (pci_dma_read dev addr off len).1.dma.status = dev.dma.status ∧
    (pci_dma_read dev addr off len).1.dma.buff =
      (fun k => if off ≤ k.val ∧ k.val < off + len then dev.pci_dev.mem (addr + (k.val - off))
        else dev.dma.buff k) ∧
    (pci_dma_read dev addr off len).1.reg =
      (if off + len ≤ PCIEMU_HW_DMA_AREA_SIZE then dev.reg
        else dev.pci_dev.reg_after_overrun addr off len) ∧
    (pci_dma_read dev addr off len).1.pci_dev.calls =
      dev.pci_dev.calls ++ [Call.pci_dma_read addr off len] ∧
    (pci_dma_read dev addr off len).1.pci_dev.mem = dev.pci_dev.mem ∧
    (pci_dma_read dev addr off len).1.pci_dev.msi_enabled = dev.pci_dev.msi_enabled ∧
    (pci_dma_read dev addr off len).1.pci_dev.msi_init_ret = dev.pci_dev.msi_init_ret ∧
    (pci_dma_read dev addr off len).1.pci_dev.dma_read_ret = dev.pci_dev.dma_read_ret ∧
    (pci_dma_read dev addr off len).1.pci_dev.dma_write_ret = dev.pci_dev.dma_write_ret ∧
    (pci_dma_read dev addr off len).1.pci_dev.log = dev.pci_dev.log :=
  ⟨rfl, rfl, rfl, rfl, rfl, rfl, rfl, rfl, rfl, rfl, rfl, rfl, rfl⟩

@[simp] theorem pci_dma_write_fields (dev : PCIEMUDevice) (addr off len : Nat) :
    (pci_dma_write dev addr off len).2 = dev.pci_dev.dma_write_ret addr len ∧
    (pci_dma_write dev addr off len).1.irq = dev.irq ∧
    (pci_dma_write dev addr off len).1.dma = dev.dma ∧
    (pci_dma_write dev addr off len).1.reg = dev.reg ∧
    (pci_dma_write dev addr off len).1.pci_dev.calls =
      dev.pci_dev.calls ++ [Call.pci_dma_write addr off len] ∧
    (pci_dma_write dev addr off len).1.pci_dev.mem =
      (fun a =>
        if addr ≤ a ∧ a < addr + len then
          match buff_at dev.dma.buff (off + (a - addr)) with
          | some v => v
          | none => dev.pci_dev.behind (off + (a - addr))
        else dev.pci_dev.mem a) ∧
    (pci_dma_write dev addr off len).1.pci_dev.msi_enabled = dev.pci_dev.msi_enabled ∧
    (pci_dma_write dev addr off len).1.pci_dev.msi_init_ret = dev.pci_dev.msi_init_ret ∧
    (pci_dma_write dev addr off len).1.pci_dev.dma_read_ret = dev.pci_dev.dma_read_ret ∧
    (pci_dma_write dev addr off len).1.pci_dev.dma_write_ret = dev.pci_dev.dma_write_ret ∧
    (pci_dma_write dev addr off len).1.pci_dev.log = dev.pci_dev.log :=
  ⟨rfl, rfl, rfl, rfl, rfl, rfl, rfl, rfl, rfl, rfl, rfl⟩

theorem pciemu_irq_raise_eq (dev : PCIEMUDevice) (vector : Nat) :
    pciemu_irq_raise dev vector =
      { dev with
        pci_dev := { dev.pci_dev with
          calls := dev.pci_dev.calls ++ raise_calls dev.pci_dev.msi_enabled vector }
        irq := raise_irq dev.pci_dev.msi_enabled dev.irq vector } := by
  obtain ⟨⟨me, mi, mem, rr, wr, calls, log, ro, bh⟩, irq, dma, reg⟩ := dev
  cases me
  · simp [pciemu_irq_raise, msi_enabled, pciemu_irq_raise_intx, pci_set_irq,
      PCIDevice.journal, raise_calls, raise_irq]
  · by_cases hv : vector ≥ PCIEMU_IRQ_MAX_VECTORS
    · simp [pciemu_irq_raise, msi_enabled, pciemu_irq_raise_msi, raise_calls, raise_irq, hv]
    · simp [pciemu_irq_raise, msi_enabled, pciemu_irq_raise_msi, msi_notify,
        PCIDevice.journal, raise_calls, raise_irq, hv]

theorem pciemu_irq_lower_eq (dev : PCIEMUDevice) (vector : Nat) :
    pciemu_irq_lower dev vector =
      { dev with
        pci_dev := { dev.pci_dev with
          calls := dev.pci_dev.calls ++ lower_calls dev.pci_dev.msi_enabled }
        irq := lower_irq dev.pci_dev.msi_enabled dev.irq vector } := by
  obtain ⟨⟨me, mi, mem, rr, wr, calls, log, ro, bh⟩, ⟨⟨vs⟩, pin⟩, dma, reg⟩ := dev
  cases me
  · simp [pciemu_irq_lower, msi_enabled, pciemu_irq_lower_intx, pci_set_irq,
      PCIDevice.journal, lower_calls, lower_irq]
  · by_cases hv : vector ≥ PCIEMU_IRQ_MAX_VECTORS
    · simp [pciemu_irq_lower, msi_enabled, pciemu_irq_lower_msi, lower_calls, lower_irq, hv]
    · cases hr : (vs ⟨vector, Nat.lt_of_not_le hv⟩).raised
      · have hu : Function.update vs ⟨vector, Nat.lt_of_not_le hv⟩
            { raised := false } = vs := by
          rw [← hr]; exact Function.update_eq_self _ _
        simp [pciemu_irq_lower, msi_enabled, pciemu_irq_lower_msi, lower_calls, lower_irq,
          hv, hr, hu]
      · simp [pciemu_irq_lower, msi_enabled, pciemu_irq_lower_msi, lower_calls, lower_irq,
          hv, hr]

@[simp] theorem pciemu_irq_raise_fields (dev : PCIEMUDevice) (vector : Nat) :
    (pciemu_irq_raise dev vector).irq = raise_irq dev.pci_dev.msi_enabled dev.irq vector ∧
    (pciemu_irq_raise dev vector).dma = dev.dma ∧
    (pciemu_irq_raise dev vector).reg = dev.reg ∧
    (pciemu_irq_raise dev vector).pci_dev.calls =
      dev.pci_dev.calls ++ raise_calls dev.pci_dev.msi_enabled vector ∧
    (pciemu_irq_raise dev vector).pci_dev.mem = dev.pci_dev.mem ∧
    (pciemu_irq_raise dev vector).pci_dev.msi_enabled = dev.pci_dev.msi_enabled ∧
    (pciemu_irq_raise dev vector).pci_dev.msi_init_ret = dev.pci_dev.msi_init_ret ∧
    (pciemu_irq_raise dev vector).pci_dev.dma_read_ret = dev.pci_dev.dma_read_ret ∧
    (pciemu_irq_raise dev vector).pci_dev.dma_write_ret = dev.pci_dev.dma_write_ret ∧
    (pciemu_irq_raise dev vector).pci_dev.log = dev.pci_dev.log := by
  rw [pciemu_irq_raise_eq]
  exact ⟨rfl, rfl, rfl, rfl, rfl, rfl, rfl, rfl, rfl, rfl⟩

@[simp] theorem pciemu_irq_lower_fields (dev : PCIEMUDevice) (vector : Nat) :
    (pciemu_irq_lower dev vector).irq = lower_irq dev.pci_dev.msi_enabled dev.irq vector ∧
    (pciemu_irq_lower dev vector).dma = dev.dma ∧
    (pciemu_irq_lower dev vector).reg = dev.reg ∧
    (pciemu_irq_lower dev vector).pci_dev.calls =
      dev.pci_dev.calls ++ lower_calls dev.pci_dev.msi_enabled ∧
    (pciemu_irq_lower dev vector).pci_dev.mem = dev.pci_dev.mem ∧
    (pciemu_irq_lower dev vector).pci_dev.msi_enabled = dev.pci_dev.msi_enabled ∧
    (pciemu_irq_lower dev vector).pci_dev.msi_init_ret = dev.pci_dev.msi_init_ret ∧
    (pciemu_irq_lower dev vector).pci_dev.dma_read_ret = dev.pci_dev.dma_read_ret ∧
    (pciemu_irq_lower dev vector).pci_dev.dma_write_ret = dev.pci_dev.dma_write_ret ∧
    (pciemu_irq_lower dev vector).pci_dev.log = dev.pci_dev.log := by
  rw [pciemu_irq_lower_eq]
  exact ⟨rfl, rfl, rfl, rfl, rfl, rfl, rfl, rfl, rfl, rfl⟩

theorem pciemu_dma_inside_device_boundaries_iff (addr : Nat) :
    pciemu_dma_inside_device_boundaries addr = true ↔ 0x10000 ≤ addr ∧ addr ≤ 0x11000 := by
  simp only [pciemu_dma_inside_device_boundaries, Bool.and_eq_true, decide_eq_true_eq]
  exact Iff.rfl

/-! ### The DMA engine: `pciemu_dma_execute` -/

theorem execute_to_unfold (dev : PCIEMUDevice)
    (hcmd : dev.dma.config.cmd = PCIEMU_HW_DMA_DIRECTION_TO_DEVICE)
    (hin : pciemu_dma_inside_device_boundaries dev.dma.config.txdesc.dst = true) :
    pciemu_dma_execute dev =
      pciemu_irq_raise
        (if (pci_dma_read (pciemu_dma_addr_mask dev dev.dma.config.txdesc.src).1
              (pciemu_dma_addr_mask dev dev.dma.config.txdesc.src).2
              (dev.dma.config.txdesc.dst - PCIEMU_HW_DMA_AREA_START)
              dev.dma.config.txdesc.len).2 ≠ 0 then
          qemu_log_mask
            (pci_dma_read (pciemu_dma_addr_mask dev dev.dma.config.txdesc.src).1
              (pciemu_dma_addr_mask dev dev.dma.config.txdesc.src).2
              (dev.dma.config.txdesc.dst - PCIEMU_HW_DMA_AREA_START)
              dev.dma.config.txdesc.len).1
            (LogLine.pci_dma_read_err
              (pci_dma_read (pciemu_dma_addr_mask dev dev.dma.config.txdesc.src).1
                (pciemu_dma_addr_mask dev dev.dma.config.txdesc.src).2
                (dev.dma.config.txdesc.dst - PCIEMU_HW_DMA_AREA_START)
                dev.dma.config.txdesc.len).2)
        else
          (pci_dma_read (pciemu_dma_addr_mask dev dev.dma.config.txdesc.src).1
            (pciemu_dma_addr_mask dev dev.dma.config.txdesc.src).2
            (dev.dma.config.txdesc.dst - PCIEMU_HW_DMA_AREA_START)
            dev.dma.config.txdesc.len).1)
        PCIEMU_HW_IRQ_DMA_ENDED_VECTOR := by
  unfold pciemu_dma_execute
  simp only [hcmd, hin]
  rfl

/-- C2. With `cmd = TO_DEVICE` and `dst` in `[0x10000, 0x11000]`, for every
`src`, `len` and mask, `pciemu_dma_execute` makes exactly two calls to the
host, in this order: one `pci_dma_read` of `len` bytes from bus address
`src AND mask` into the buffer at offset `dst - 0x10000`, then the one call
that raising vector 0 makes (`msi_notify(0)` in message mode, `pci_set_irq(1)`
in pin mode); there is no `pci_dma_write`.  The interrupt state is the one
`pciemu_irq_raise(dev, 0)` leaves, the bytes of the buffer inside the
transferred range hold the bus bytes, and configuration, status and bus memory
are unchanged.  The registers are unchanged when the transfer ends inside the
array (`dst - 0x10000 + len ≤ 4096`); when it runs past the array they are
what the copy left behind it (`reg_after_overrun`), of which nothing is
known. -/
theorem pciemu_dma_execute_to_device (dev : PCIEMUDevice)
    (hcmd : dev.dma.config.cmd = PCIEMU_HW_DMA_DIRECTION_TO_DEVICE)
    (hlo : 0x10000 ≤ dev.dma.config.txdesc.dst)
    (hhi : dev.dma.config.txdesc.dst ≤ 0x11000) :
    (pciemu_dma_execute dev).pci_dev.calls =
        dev.pci_dev.calls ++
          [Call.pci_dma_read (dev.dma.config.txdesc.src &&& dev.dma.config.mask)
              (dev.dma.config.txdesc.dst - 0x10000) dev.dma.config.txdesc.len,
            if dev.pci_dev.msi_enabled then Call.msi_notify 0 else Call.pci_set_irq 1] ∧
      (pciemu_dma_execute dev).irq = (pciemu_irq_raise dev 0).irq ∧
      (pciemu_dma_execute dev).dma.buff =
        (fun k =>
          if dev.dma.config.txdesc.dst - 0x10000 ≤ k.val ∧
              k.val < dev.dma.config.txdesc.dst - 0x10000 + dev.dma.config.txdesc.len then
            dev.pci_dev.mem
              ((dev.dma.config.txdesc.src &&& dev.dma.config.mask) +
                (k.val - (dev.dma.config.txdesc.dst - 0x10000)))
          else dev.dma.buff k) ∧
      (pciemu_dma_execute dev).dma.config = dev.dma.config ∧
      (pciemu_dma_execute dev).dma.status = dev.dma.status ∧
      (pciemu_dma_execute dev).reg =
        (if dev.dma.config.txdesc.dst - 0x10000 + dev.dma.config.txdesc.len ≤ 4096 then dev.reg
          else
            dev.pci_dev.reg_after_overrun (dev.dma.config.txdesc.src &&& dev.dma.config.mask)
              (dev.dma.config.txdesc.dst - 0x10000) dev.dma.config.txdesc.len) ∧
      (pciemu_dma_execute dev).pci_dev.mem = dev.pci_dev.mem := by
  have hin : pciemu_dma_inside_device_boundaries dev.dma.config.txdesc.dst = true :=
    (pciemu_dma_inside_device_boundaries_iff _).2 ⟨hlo, hhi⟩
  rw [execute_to_unfold dev hcmd hin]
  simp only [pciemu_irq_raise_fields, pciemu_dma_addr_mask_fields, pci_dma_read_fields]
  by_cases herr : dev.pci_dev.dma_read_ret (dev.dma.config.txdesc.src &&& dev.dma.config.mask)
      dev.dma.config.txdesc.len = 0 <;>
    cases hm : dev.pci_dev.msi_enabled <;> simp [herr, hm, raise_calls]

theorem execute_from_unfold (dev : PCIEMUDevice)
    (hcmd : dev.dma.config.cmd = PCIEMU_HW_DMA_DIRECTION_FROM_DEVICE)
    (hin : pciemu_dma_inside_device_boundaries dev.dma.config.txdesc.src = true) :
    pciemu_dma_execute dev =
      pciemu_irq_raise
        (if (pci_dma_write (pciemu_dma_addr_mask dev dev.dma.config.txdesc.dst).1
              (pciemu_dma_addr_mask dev dev.dma.config.txdesc.dst).2
              (dev.dma.config.txdesc.src - PCIEMU_HW_DMA_AREA_START)
              dev.dma.config.txdesc.len).2 ≠ 0 then
          qemu_log_mask
            (pci_dma_write (pciemu_dma_addr_mask dev dev.dma.config.txdesc.dst).1
              (pciemu_dma_addr_mask dev dev.dma.config.txdesc.dst).2
              (dev.dma.config.txdesc.src - PCIEMU_HW_DMA_AREA_START)
              dev.dma.config.txdesc.len).1
            (LogLine.pci_dma_write_err
              (pci_dma_write (pciemu_dma_addr_mask dev dev.dma.config.txdesc.dst).1
                (pciemu_dma_addr_mask dev dev.dma.config.txdesc.dst).2
                (dev.dma.config.txdesc.src - PCIEMU_HW_DMA_AREA_START)
                dev.dma.config.txdesc.len).2)
        else
          (pci_dma_write (pciemu_dma_addr_mask dev dev.dma.config.txdesc.dst).1
            (pciemu_dma_addr_mask dev dev.dma.config.txdesc.dst).2
            (dev.dma.config.txdesc.src - PCIEMU_HW_DMA_AREA_START)
            dev.dma.config.txdesc.len).1)
        PCIEMU_HW_IRQ_DMA_ENDED_VECTOR := by
  unfold pciemu_dma_execute
  simp only [hcmd, hin]
  rfl

/-- C3. With `cmd = FROM_DEVICE` and `src` in `[0x10000, 0x11000]`, for every
`dst`, `len` and mask, `pciemu_dma_execute` makes exactly two calls to the
host, in this order: one `pci_dma_write` of `len` bytes to bus address
`dst AND mask` from the buffer at offset `src - 0x10000`, then the one call
that raising vector 0 makes; there is no `pci_dma_read`.  The DMA engine
(buffer, configuration, status) and the registers are unchanged (the device is
only read), and the interrupt state is the one `pciemu_irq_raise(dev, 0)`
leaves.  On the bus, the bytes outside the written range are unchanged; a byte
of the range whose source index is below 4096 holds that buffer byte; a byte
whose source index is 4096 or more holds what the copy found behind the array
(`behind`), of which nothing is known. -/
theorem pciemu_dma_execute_from_device (dev : PCIEMUDevice)
    (hcmd : dev.dma.config.cmd = PCIEMU_HW_DMA_DIRECTION_FROM_DEVICE)
    (hlo : 0x10000 ≤ dev.dma.config.txdesc.src)
    (hhi : dev.dma.config.txdesc.src ≤ 0x11000) :
    (pciemu_dma_execute dev).pci_dev.calls =
        dev.pci_dev.calls ++
          [Call.pci_dma_write (dev.dma.config.txdesc.dst &&& dev.dma.config.mask)
              (dev.dma.config.txdesc.src - 0x10000) dev.dma.config.txdesc.len,
            if dev.pci_dev.msi_enabled then Call.msi_notify 0 else Call.pci_set_irq 1] ∧
      (pciemu_dma_execute dev).dma = dev.dma ∧
      (pciemu_dma_execute dev).irq = (pciemu_irq_raise dev 0).irq ∧
      (pciemu_dma_execute dev).reg = dev.reg ∧
      (pciemu_dma_execute dev).pci_dev.mem =
        (fun a =>
          if (dev.dma.config.txdesc.dst &&& dev.dma.config.mask) ≤ a ∧
              a < (dev.dma.config.txdesc.dst &&& dev.dma.config.mask) +
                dev.dma.config.txdesc.len then
            match buff_at dev.dma.buff
                (dev.dma.config.txdesc.src - 0x10000 +
                  (a - (dev.dma.config.txdesc.dst &&& dev.dma.config.mask))) with
            | some v => v
            | none =>
              dev.pci_dev.behind
                (dev.dma.config.txdesc.src - 0x10000 +
                  (a - (dev.dma.config.txdesc.dst &&& dev.dma.config.mask)))
          else dev.pci_dev.mem a) := by
  have hin : pciemu_dma_inside_device_boundaries dev.dma.config.txdesc.src = true :=
    (pciemu_dma_inside_device_boundaries_iff _).2 ⟨hlo, hhi⟩
  rw [execute_from_unfold dev hcmd hin]
  simp only [pciemu_irq_raise_fields, pciemu_dma_addr_mask_fields, pci_dma_write_fields]
  by_cases herr : dev.pci_dev.dma_write_ret (dev.dma.config.txdesc.dst &&& dev.dma.config.mask)
      dev.dma.config.txdesc.len = 0 <;>
    cases hm : dev.pci_dev.msi_enabled <;> simp [herr, hm, raise_calls]

/-- C4. In every no-transfer case (`cmd` neither 1 nor 2; `cmd = 1` and `dst`
outside `[0x10000, 0x11000]`; `cmd = 2` and `src` outside `[0x10000, 0x11000]`)
`pciemu_dma_execute` makes no call to the host (no bus read, no bus write, no
interrupt call) and leaves the DMA engine (buffer, configuration, status), the
interrupt state, the registers and the bus memory unchanged. -/
theorem pciemu_dma_execute_inert (dev : PCIEMUDevice)
    (h : (dev.dma.config.cmd ≠ 1 ∧ dev.dma.config.cmd ≠ 2) ∨
      (dev.dma.config.cmd = 1 ∧
        (dev.dma.config.txdesc.dst < 0x10000 ∨ 0x11000 < dev.dma.config.txdesc.dst)) ∨
      (dev.dma.config.cmd = 2 ∧
        (dev.dma.config.txdesc.src < 0x10000 ∨ 0x11000 < dev.dma.config.txdesc.src))) :
    (pciemu_dma_execute dev).pci_dev.calls = dev.pci_dev.calls ∧
      (pciemu_dma_execute dev).dma = dev.dma ∧
      (pciemu_dma_execute dev).irq = dev.irq ∧
      (pciemu_dma_execute dev).reg = dev.reg ∧
      (pciemu_dma_execute dev).pci_dev.mem = dev.pci_dev.mem := by
  rcases h with ⟨h1, h2⟩ | ⟨h1, h2⟩ | ⟨h1, h2⟩
  · have : pciemu_dma_execute dev = dev := by
      unfold pciemu_dma_execute
      simp only [h1, h2, ne_eq, not_false_eq_true, and_self, if_true]
    rw [this]
    exact ⟨rfl, rfl, rfl, rfl, rfl⟩
  · have hout : pciemu_dma_inside_device_boundaries dev.dma.config.txdesc.dst = false := by
      rw [← Bool.not_eq_true, pciemu_dma_inside_device_boundaries_iff]
      omega
    have : pciemu_dma_execute dev = qemu_log_mask dev LogLine.dst_out_of_bounds := by
      unfold pciemu_dma_execute
      simp [h1, hout]
    rw [this]
    exact ⟨rfl, rfl, rfl, rfl, rfl⟩
  · have hout : pciemu_dma_inside_device_boundaries dev.dma.config.txdesc.src = false := by
      rw [← Bool.not_eq_true, pciemu_dma_inside_device_boundaries_iff]
      omega
    have : pciemu_dma_execute dev = qemu_log_mask dev LogLine.src_out_of_bounds := by
      unfold pciemu_dma_execute
      simp [h1, hout]
    rw [this]
    exact ⟨rfl, rfl, rfl, rfl, rfl⟩

/-! ### The DMA engine: doorbell and configuration registers -/

/-- C5. From every device whose DMA status is Idle, whatever the configuration
and whatever status the host reports for the bus transfer (`dma_read_ret` and
`dma_write_ret` are arbitrary), the DMA status is Idle after
`pciemu_dma_doorbell_ring`. -/
theorem pciemu_dma_doorbell_ring_idle (dev : PCIEMUDevice)
    (h : dev.dma.status = DMA_STATUS_IDLE) :
    (pciemu_dma_doorbell_ring dev).dma.status = DMA_STATUS_IDLE := by
  unfold pciemu_dma_doorbell_ring
  simp [qatomic_cmpxchg, h]

/-- C6. From every device whose DMA status is Executing,
`pciemu_dma_doorbell_ring` returns the device unchanged: same status,
configuration, buffer, interrupt state and registers, no call to the host and
no log line. -/
theorem pciemu_dma_doorbell_ring_executing (dev : PCIEMUDevice)
    (h : dev.dma.status = DMA_STATUS_EXECUTING) :
    pciemu_dma_doorbell_ring dev = dev := by
  obtain ⟨p, irq, ⟨config, status, buff⟩, reg⟩ := dev
  simp only at h
  subst h
  rfl

theorem pciemu_mmio_write_cfg (dev : PCIEMUDevice) (val size : Nat) :
    pciemu_mmio_write dev 0x30 val size = pciemu_dma_config_txdesc_src dev val ∧
    pciemu_mmio_write dev 0x38 val size = pciemu_dma_config_txdesc_dst dev val ∧
    pciemu_mmio_write dev 0x40 val size = pciemu_dma_config_txdesc_len dev val ∧
    pciemu_mmio_write dev 0x48 val size = pciemu_dma_config_cmd dev val ∧
    pciemu_mmio_write dev 0x50 val size = pciemu_dma_doorbell_ring dev :=
  ⟨rfl, rfl, rfl, rfl, rfl⟩

/-- C7. From every device whose DMA status is Idle, for every value `v` and
every access size, the register write of `v` at offset 0x30, 0x38, 0x40 or
0x48 returns the device with exactly the field `src`, `dst`, `len` or `cmd`
set to `v`: the other three configuration fields, the mask, the status, the
buffer, the registers, the interrupt state and the host side (no call, no log
line) are those of the device before. -/
theorem pciemu_mmio_write_config_idle (dev : PCIEMUDevice) (v size : Nat)
    (h : dev.dma.status = DMA_STATUS_IDLE) :
    pciemu_mmio_write dev 0x30 v size =
        { dev with dma := { dev.dma with config := { dev.dma.config with
            txdesc := { dev.dma.config.txdesc with src := v } } } } ∧
      pciemu_mmio_write dev 0x38 v size =
        { dev with dma := { dev.dma with config := { dev.dma.config with
            txdesc := { dev.dma.config.txdesc with dst := v } } } } ∧
      pciemu_mmio_write dev 0x40 v size =
        { dev with dma := { dev.dma with config := { dev.dma.config with
            txdesc := { dev.dma.config.txdesc with len := v } } } } ∧
      pciemu_mmio_write dev 0x48 v size =
        { dev with dma := { dev.dma with config := { dev.dma.config with cmd := v } } } := by
  obtain ⟨h1, h2, h3, h4, -⟩ := pciemu_mmio_write_cfg dev v size
  rw [h1, h2, h3, h4]
  simp [pciemu_dma_config_txdesc_src, pciemu_dma_config_txdesc_dst,
    pciemu_dma_config_txdesc_len, pciemu_dma_config_cmd, h]

/-- C8. From every device whose DMA status is Executing or Off, for every
value `v`, each of `pciemu_dma_config_txdesc_src`, `pciemu_dma_config_txdesc_dst`,
`pciemu_dma_config_txdesc_len` and `pciemu_dma_config_cmd`, called directly or
through a register write at 0x30, 0x38, 0x40, 0x48, returns the device
unchanged. -/
theorem pciemu_dma_config_not_idle (dev : PCIEMUDevice) (v size : Nat)
    (h : dev.dma.status = DMA_STATUS_EXECUTING ∨ dev.dma.status = DMA_STATUS_OFF) :
    pciemu_dma_config_txdesc_src dev v = dev ∧
      pciemu_dma_config_txdesc_dst dev v = dev ∧
      pciemu_dma_config_txdesc_len dev v = dev ∧
      pciemu_dma_config_cmd dev v = dev ∧
      pciemu_mmio_write dev 0x30 v size = dev ∧
      pciemu_mmio_write dev 0x38 v size = dev ∧
      pciemu_mmio_write dev 0x40 v size = dev ∧
      pciemu_mmio_write dev 0x48 v size = dev := by
  have hne : dev.dma.status ≠ DMA_STATUS_IDLE := by
    rcases h with h | h <;> rw [h] <;> decide
  obtain ⟨h1, h2, h3, h4, -⟩ := pciemu_mmio_write_cfg dev v size
  rw [h1, h2, h3, h4]
  simp [pciemu_dma_config_txdesc_src, pciemu_dma_config_txdesc_dst,
    pciemu_dma_config_txdesc_len, pciemu_dma_config_cmd, hne]

/-! ### Reset and initialisation -/

theorem pciemu_irq_reset_eq (dev : PCIEMUDevice) :
    pciemu_irq_reset dev = pciemu_irq_lower dev 0 := rfl

theorem pciemu_mmio_reset_eq (dev : PCIEMUDevice) :
    pciemu_mmio_reset dev = { dev with reg := fun _ => 0 } := by
  have hl : List.finRange PCIEMU_HW_BAR0_REG_CNT = [0, 1, 2, 3] := rfl
  simp only [pciemu_mmio_reset, hl, List.foldl, set_reg]
  congr 1
  funext i
  fin_cases i <;> rfl

/-- C10. From every device state, the device reset (`pciemu_device_reset`,
that is `pciemu_reset`) yields a device whose four registers are 0, whose DMA
`src`, `dst`, `len` and `cmd` are 0, whose 4096 buffer bytes are 0 and whose
DMA status is Idle. -/
theorem pciemu_device_reset_yields (dev : PCIEMUDevice) :
    (∀ i, (pciemu_device_reset dev).reg i = 0) ∧
      (pciemu_device_reset dev).dma.config.txdesc.src = 0 ∧
      (pciemu_device_reset dev).dma.config.txdesc.dst = 0 ∧
      (pciemu_device_reset dev).dma.config.txdesc.len = 0 ∧
      (pciemu_device_reset dev).dma.config.cmd = 0 ∧
      (∀ k, (pciemu_device_reset dev).dma.buff k = 0) ∧
      (pciemu_device_reset dev).dma.status = DMA_STATUS_IDLE := by
  rw [pciemu_device_reset, pciemu_reset, pciemu_mmio_reset_eq]
  exact ⟨fun _ => rfl, rfl, rfl, rfl, rfl, fun _ => rfl, rfl⟩

theorem doorbell_ring_to_fields (dev : PCIEMUDevice)
    (hst : dev.dma.status ≠ DMA_STATUS_EXECUTING)
    (hcmd : dev.dma.config.cmd = PCIEMU_HW_DMA_DIRECTION_TO_DEVICE)
    (hin : pciemu_dma_inside_device_boundaries dev.dma.config.txdesc.dst = true) :
    (pciemu_dma_doorbell_ring dev).pci_dev.calls =
        dev.pci_dev.calls ++
          Call.pci_dma_read (dev.dma.config.txdesc.src &&& dev.dma.config.mask)
              (dev.dma.config.txdesc.dst - PCIEMU_HW_DMA_AREA_START)
              dev.dma.config.txdesc.len ::
            raise_calls dev.pci_dev.msi_enabled 0 ∧
      (pciemu_dma_doorbell_ring dev).irq = raise_irq dev.pci_dev.msi_enabled dev.irq 0 ∧
      (pciemu_dma_doorbell_ring dev).dma.status = DMA_STATUS_IDLE ∧
      (pciemu_dma_doorbell_ring dev).dma.config = dev.dma.config ∧
      (pciemu_dma_doorbell_ring dev).dma.buff =
        (fun k =>
          if dev.dma.config.txdesc.dst - PCIEMU_HW_DMA_AREA_START ≤ k.val ∧
              k.val < dev.dma.config.txdesc.dst - PCIEMU_HW_DMA_AREA_START +
                dev.dma.config.txdesc.len then
            dev.pci_dev.mem
              ((dev.dma.config.txdesc.src &&& dev.dma.config.mask) +
                (k.val - (dev.dma.config.txdesc.dst - PCIEMU_HW_DMA_AREA_START)))
          else dev.dma.buff k) := by
  obtain ⟨p, irq, ⟨config, status, buff⟩, reg⟩ := dev
  simp only at hst hcmd hin ⊢
  have hx : pciemu_dma_doorbell_ring ⟨p, irq, ⟨config, status, buff⟩, reg⟩ =
      { pciemu_dma_execute ⟨p, irq,
          ⟨config, if status = DMA_STATUS_IDLE then DMA_STATUS_EXECUTING else status, buff⟩, reg⟩
        with dma := { (pciemu_dma_execute ⟨p, irq,
          ⟨config, if status = DMA_STATUS_IDLE then DMA_STATUS_EXECUTING else status, buff⟩,
          reg⟩).dma with status := DMA_STATUS_IDLE } } := by
    unfold pciemu_dma_doorbell_ring
    simp only [qatomic_cmpxchg, hst, if_false]
  rw [hx, execute_to_unfold ⟨p, irq,
    ⟨config, if status = DMA_STATUS_IDLE then DMA_STATUS_EXECUTING else status, buff⟩, reg⟩
    hcmd hin]
  simp only [pciemu_irq_raise_fields, pciemu_dma_addr_mask_fields, pci_dma_read_fields]
  by_cases herr : p.dma_read_ret (config.txdesc.src &&& config.mask) config.txdesc.len = 0 <;>
    simp [herr]

theorem pciemu_device_init_dma (d : PCIEMUDevice) :
    (pciemu_device_init d).dma =
      { config := { txdesc := { src := 0, dst := 0, len := 0 }, cmd := 0, mask := 2 ^ 32 - 1 }
        status := DMA_STATUS_IDLE
        buff := fun _ => 0 } := by
  have hm : DMA_BIT_MASK PCIEMU_HW_DMA_ADDR_CAPABILITY = 2 ^ 32 - 1 := by decide
  simp only [pciemu_device_init, pciemu_mmio_init, pciemu_dma_init, pciemu_dma_reset, hm]

/-- C1. End to end through the register dispatcher.  From the state produced by
`pciemu_device_init` (mask `2^32 - 1`, status Idle), on a host with message
interrupts enabled, the writes `write(0x30, 0xDEADBEEF)`, `write(0x38, 0x10000)`,
`write(0x40, 4)`, `write(0x48, 1)`, `write(0x50, v)` (any `v`, any access
sizes) add exactly two calls to the journal of host calls: one `pci_dma_read`
of 4 bytes from bus address `0xDEADBEEF` into buffer offset 0, then one
`msi_notify(0)`; there is no `pci_dma_write`.  Afterwards the raised flag of
vector 0 is true, the DMA status is Idle, and buffer bytes 0..3 hold the four
bus bytes while the rest of the buffer is still zero. -/
theorem end_to_end_message_mode (d : PCIEMUDevice) (v s1 s2 s3 s4 s5 : Nat)
    (hmsi : (pciemu_device_init d).pci_dev.msi_enabled = true) :
    (pciemu_device_init d).dma.config.mask = 2 ^ 32 - 1 ∧
      (pciemu_device_init d).dma.status = DMA_STATUS_IDLE ∧
      (end_to_end_writes (pciemu_device_init d) v s1 s2 s3 s4 s5).pci_dev.calls =
        (pciemu_device_init d).pci_dev.calls ++
          [Call.pci_dma_read 0xDEADBEEF 0 4, Call.msi_notify 0] ∧
      ((end_to_end_writes (pciemu_device_init d) v s1 s2 s3 s4 s5).irq.msi.msi_vectors
        0).raised = true ∧
      (end_to_end_writes (pciemu_device_init d) v s1 s2 s3 s4 s5).dma.status =
        DMA_STATUS_IDLE ∧
      ∀ k, (end_to_end_writes (pciemu_device_init d) v s1 s2 s3 s4 s5).dma.buff k =
        if k.val < 4 then (pciemu_device_init d).pci_dev.mem (0xDEADBEEF + k.val) else 0 := by
  have hdma := pciemu_device_init_dma d
  generalize pciemu_device_init d = d0 at hmsi hdma ⊢
  obtain ⟨p, irq, dma, reg⟩ := d0
  simp only at hmsi hdma
  subst hdma
  refine ⟨rfl, rfl, ?_⟩
  have hw : end_to_end_writes
      { pci_dev := p, irq := irq,
        dma := { config := { txdesc := { src := 0, dst := 0, len := 0 }, cmd := 0,
                             mask := 2 ^ 32 - 1 },
                 status := DMA_STATUS_IDLE, buff := fun _ => 0 },
        reg := reg } v s1 s2 s3 s4 s5 =
      pciemu_dma_doorbell_ring
        { pci_dev := p, irq := irq,
          dma := { config := { txdesc := { src := 0xDEADBEEF, dst := 0x10000, len := 4 },
                               cmd := 1, mask := 2 ^ 32 - 1 },
                   status := DMA_STATUS_IDLE, buff := fun _ => 0 },
          reg := reg } := rfl
  have hand : 0xDEADBEEF &&& (2 ^ 32 - 1) = 0xDEADBEEF := by decide
  rw [hw]
  obtain ⟨h1, h2, h3, -, h5⟩ := doorbell_ring_to_fields
    { pci_dev := p, irq := irq,
      dma := { config := { txdesc := { src := 0xDEADBEEF, dst := 0x10000, len := 4 },
                           cmd := 1, mask := 2 ^ 32 - 1 },
               status := DMA_STATUS_IDLE, buff := fun _ => 0 },
      reg := reg } (fun h => by cases h) rfl rfl
  simp only [hand, hmsi] at h1 h2 h5
  refine ⟨h1, ?_, h3, ?_⟩
  · rw [h2]; rfl
  · intro k
    rw [h5]
    simp

/-- C9, the code run where the claim fails.  After `pciemu_dma_fini` the
status is Off; one doorbell write (offset 0x50) later it is Idle, because
`pciemu_dma_doorbell_ring` returns early only on Executing; the configuration
registers then accept writes again and a second doorbell performs a bus read
and raises vector 0 on the finalised engine. -/
theorem pciemu_dma_doorbell_ring_off_runs :
    dev_off.dma.status = DMA_STATUS_OFF ∧
      (pciemu_mmio_write dev_off 0x50 0 8).dma.status = DMA_STATUS_IDLE ∧
      (end_to_end_writes (pciemu_mmio_write dev_off 0x50 0 8) 0 8 8 8 8 8).pci_dev.calls =
        dev_off.pci_dev.calls ++ [Call.pci_dma_read 0xDEADBEEF 0 4, Call.msi_notify 0] :=
  ⟨rfl, rfl, rfl⟩

/-! ### The register dispatcher -/

theorem mmio_read_reg (dev : PCIEMUDevice) (i : Fin PCIEMU_HW_BAR0_REG_CNT) (size : Nat) :
    pciemu_mmio_read dev (8 * i.val) size = dev.reg i := by
  fin_cases i <;> rfl

theorem mmio_read_other (dev : PCIEMUDevice) (addr size : Nat)
    (h0 : addr ≠ 0x00) (h1 : addr ≠ 0x08) (h2 : addr ≠ 0x10) (h3 : addr ≠ 0x18) :
    pciemu_mmio_read dev addr size = 2 ^ 64 - 1 := by
  unfold pciemu_mmio_read
  simp only [h0, h1, h2, h3, if_false]
  split <;> rfl

theorem mmio_write_reg (dev : PCIEMUDevice) (i : Fin PCIEMU_HW_BAR0_REG_CNT) (v size : Nat) :
    pciemu_mmio_write dev (8 * i.val) v size = set_reg dev i v := by
  fin_cases i <;> rfl

/-- C11. For every device, offset and access size, `pciemu_mmio_read` returns
`reg[i]` at offset `8 * i` (`i` in 0..3) and the all-ones value
`0xFFFFFFFFFFFFFFFF` at every other offset, outside `[0x00, 0x50]` as well as
inside it (0x04, 0x20, 0x30, 0x50 are instances).  The read is a function of
the device record that returns a value only: the source function has no
assignment to the device and no call to the host. -/
theorem pciemu_mmio_read_table (dev : PCIEMUDevice) (addr size : Nat) :
    (∀ i : Fin PCIEMU_HW_BAR0_REG_CNT, pciemu_mmio_read dev (8 * i.val) size = dev.reg i) ∧
      ((∀ i : Fin PCIEMU_HW_BAR0_REG_CNT, addr ≠ 8 * i.val) →
        pciemu_mmio_read dev addr size = 0xFFFFFFFFFFFFFFFF) ∧
      pciemu_mmio_read dev 0x04 size = 0xFFFFFFFFFFFFFFFF ∧
      pciemu_mmio_read dev 0x20 size = 0xFFFFFFFFFFFFFFFF ∧
      pciemu_mmio_read dev 0x30 size = 0xFFFFFFFFFFFFFFFF ∧
      pciemu_mmio_read dev 0x50 size = 0xFFFFFFFFFFFFFFFF ∧
      pciemu_mmio_read dev 0x51 size = 0xFFFFFFFFFFFFFFFF := by
  refine ⟨fun i => mmio_read_reg dev i size, fun h => ?_, rfl, rfl, rfl, rfl, rfl⟩
  exact mmio_read_other dev addr size (h 0) (h 1) (h 2) (h 3)

/-- C12. The four registers are independent storage.  For every device, every
`i` in 0..3, every value `v` and all access sizes: `write(8*i, v)` returns the
device with `reg[i]` replaced by `v` and nothing else changed (DMA engine,
interrupt state and host side, so no call to the host); a following
`read(8*i)` returns `v`; and `read(8*j)` for `j ≠ i` returns what it returned
before the write. -/
theorem pciemu_mmio_write_read_reg (dev : PCIEMUDevice) (i : Fin PCIEMU_HW_BAR0_REG_CNT)
    (v size size' : Nat) :
    pciemu_mmio_write dev (8 * i.val) v size = { dev with reg := Function.update dev.reg i v } ∧
      pciemu_mmio_read (pciemu_mmio_write dev (8 * i.val) v size) (8 * i.val) size' = v ∧
      ∀ j : Fin PCIEMU_HW_BAR0_REG_CNT, j ≠ i →
        pciemu_mmio_read (pciemu_mmio_write dev (8 * i.val) v size) (8 * j.val) size' =
          pciemu_mmio_read dev (8 * j.val) size' := by
  refine ⟨mmio_write_reg dev i v size, ?_, fun j hj => ?_⟩
  · rw [mmio_write_reg, mmio_read_reg]
    simp [set_reg]
  · rw [mmio_write_reg, mmio_read_reg, mmio_read_reg]
    simp [set_reg, Function.update, hj]

/-- C13. A write at an offset that is not one of the eleven table offsets
`0x00, 0x08, 0x10, 0x18, 0x20, 0x28, 0x30, 0x38, 0x40, 0x48, 0x50` returns the
device unchanged, for every value and size: this covers every offset above
0x50 and the other offsets below it. -/
theorem pciemu_mmio_write_unmapped (dev : PCIEMUDevice) (addr v size : Nat)
    (h : addr ∉ [0x00, 0x08, 0x10, 0x18, 0x20, 0x28, 0x30, 0x38, 0x40, 0x48, 0x50]) :
    pciemu_mmio_write dev addr v size = dev := by
  simp only [List.mem_cons, List.mem_singleton, not_or, List.mem_nil_iff, not_false_eq_true,
    and_true] at h
  obtain ⟨a0, a1, a2, a3, a4, a5, a6, a7, a8, a9, a10⟩ := h
  unfold pciemu_mmio_write
  simp only [a0, a1, a2, a3, a4, a5, a6, a7, a8, a9, a10, if_false]
  split <;> rfl

/-- C14. The three trigger offsets ignore the written value and the access
size: for every device, value `v` and size, `write(0x20, v)` is
`pciemu_irq_raise(dev, 0)`, `write(0x28, v)` is `pciemu_irq_lower(dev, 0)` and
`write(0x50, v)` is `pciemu_dma_doorbell_ring(dev)`; `v` does not occur in the
result. -/
theorem pciemu_mmio_write_triggers (dev : PCIEMUDevice) (v size : Nat) :
    pciemu_mmio_write dev 0x20 v size = pciemu_irq_raise dev 0 ∧
      pciemu_mmio_write dev 0x28 v size = pciemu_irq_lower dev 0 ∧
      pciemu_mmio_write dev 0x50 v size = pciemu_dma_doorbell_ring dev :=
  ⟨rfl, rfl, rfl⟩

/-- C15, as stated, fails: on the Idle device `dev_to`, `write(0x30, 5)`
followed by `read(0x30)` does not return 5. -/
theorem pciemu_mmio_config_readback_fails :
    dev_to.dma.status = DMA_STATUS_IDLE ∧
      pciemu_mmio_read (pciemu_mmio_write dev_to 0x30 5 8) 0x30 8 ≠ 5 :=
  ⟨rfl, by decide⟩

/-- C15, amended.  The DMA configuration registers are write-only.  For every
device whose DMA status is Idle, every value `v` and all access sizes: after
`write(o, v)` at `o` = 0x30, 0x38, 0x40, 0x48 the configuration field `src`,
`dst`, `len`, `cmd` holds `v` exactly, and `read(o)` returns the all-ones value
`0xFFFFFFFFFFFFFFFF`. -/
theorem pciemu_mmio_config_write_only (dev : PCIEMUDevice) (v size size' : Nat)
    (h : dev.dma.status = DMA_STATUS_IDLE) :
    ((pciemu_mmio_write dev 0x30 v size).dma.config.txdesc.src = v ∧
        pciemu_mmio_read (pciemu_mmio_write dev 0x30 v size) 0x30 size' =
          0xFFFFFFFFFFFFFFFF) ∧
      ((pciemu_mmio_write dev 0x38 v size).dma.config.txdesc.dst = v ∧
        pciemu_mmio_read (pciemu_mmio_write dev 0x38 v size) 0x38 size' =
          0xFFFFFFFFFFFFFFFF) ∧
      ((pciemu_mmio_write dev 0x40 v size).dma.config.txdesc.len = v ∧
        pciemu_mmio_read (pciemu_mmio_write dev 0x40 v size) 0x40 size' =
          0xFFFFFFFFFFFFFFFF) ∧
      ((pciemu_mmio_write dev 0x48 v size).dma.config.cmd = v ∧
        pciemu_mmio_read (pciemu_mmio_write dev 0x48 v size) 0x48 size' =
          0xFFFFFFFFFFFFFFFF) := by
  obtain ⟨h1, h2, h3, h4, -⟩ := pciemu_mmio_write_cfg dev v size
  rw [h1, h2, h3, h4]
  unfold pciemu_dma_config_txdesc_src pciemu_dma_config_txdesc_dst
    pciemu_dma_config_txdesc_len pciemu_dma_config_cmd
  rw [if_pos h, if_pos h, if_pos h, if_pos h]
  exact ⟨⟨rfl, rfl⟩, ⟨rfl, rfl⟩, ⟨rfl, rfl⟩, ⟨rfl, rfl⟩⟩

/-! ### The completion interrupt and the bus result -/

theorem execute_to_frame (dev : PCIEMUDevice)
    (hcmd : dev.dma.config.cmd = PCIEMU_HW_DMA_DIRECTION_TO_DEVICE)
    (hin : pciemu_dma_inside_device_boundaries dev.dma.config.txdesc.dst = true) :
    (pciemu_dma_execute dev).pci_dev.calls =
        dev.pci_dev.calls ++
          Call.pci_dma_read (dev.dma.config.txdesc.src &&& dev.dma.config.mask)
              (dev.dma.config.txdesc.dst - PCIEMU_HW_DMA_AREA_START)
              dev.dma.config.txdesc.len ::
            raise_calls dev.pci_dev.msi_enabled 0 ∧
      (pciemu_dma_execute dev).irq = raise_irq dev.pci_dev.msi_enabled dev.irq 0 ∧
      (pciemu_dma_execute dev).dma.config = dev.dma.config ∧
      (pciemu_dma_execute dev).dma.status = dev.dma.status := by
  rw [execute_to_unfold dev hcmd hin]
  simp only [pciemu_irq_raise_fields, pciemu_dma_addr_mask_fields, pci_dma_read_fields]
  by_cases herr : dev.pci_dev.dma_read_ret (dev.dma.config.txdesc.src &&& dev.dma.config.mask)
      dev.dma.config.txdesc.len = 0 <;> simp [herr]

theorem execute_from_frame (dev : PCIEMUDevice)
    (hcmd : dev.dma.config.cmd = PCIEMU_HW_DMA_DIRECTION_FROM_DEVICE)
    (hin : pciemu_dma_inside_device_boundaries dev.dma.config.txdesc.src = true) :
    (pciemu_dma_execute dev).pci_dev.calls =
        dev.pci_dev.calls ++
          Call.pci_dma_write (dev.dma.config.txdesc.dst &&& dev.dma.config.mask)
              (dev.dma.config.txdesc.src - PCIEMU_HW_DMA_AREA_START)
              dev.dma.config.txdesc.len ::
            raise_calls dev.pci_dev.msi_enabled 0 ∧
      (pciemu_dma_execute dev).irq = raise_irq dev.pci_dev.msi_enabled dev.irq 0 ∧
      (pciemu_dma_execute dev).dma.config = dev.dma.config ∧
      (pciemu_dma_execute dev).dma.status = dev.dma.status := by
  rw [execute_from_unfold dev hcmd hin]
  simp only [pciemu_irq_raise_fields, pciemu_dma_addr_mask_fields, pci_dma_write_fields]
  by_cases herr : dev.pci_dev.dma_write_ret (dev.dma.config.txdesc.dst &&& dev.dma.config.mask)
      dev.dma.config.txdesc.len = 0 <;> simp [herr]

/-- C16. The completion interrupt does not depend on the bus result.  Take an
in-window transfer (`cmd = 1` with `dst` in `[0x10000, 0x11000]`, or `cmd = 2`
with `src` in `[0x10000, 0x11000]`) and run `pciemu_dma_execute` on two hosts
that differ only in the status they report for the bus transfer (`r1`, `w1`
against `r2`, `w2`: one may report success, the other failure).  In both runs
the calls added to the journal are the one bus transfer followed by the one
call that raising vector 0 makes, and the two runs end with the same
configuration, status and interrupt state. -/
theorem pciemu_dma_execute_irq_any_bus_result (dev : PCIEMUDevice)
    (r1 w1 r2 w2 : Nat → Nat → Int)
    (h : (dev.dma.config.cmd = 1 ∧ 0x10000 ≤ dev.dma.config.txdesc.dst ∧
          dev.dma.config.txdesc.dst ≤ 0x11000) ∨
      (dev.dma.config.cmd = 2 ∧ 0x10000 ≤ dev.dma.config.txdesc.src ∧
          dev.dma.config.txdesc.src ≤ 0x11000)) :
    (pciemu_dma_execute (with_bus_status dev r1 w1)).pci_dev.calls =
        dev.pci_dev.calls ++
          [if dev.dma.config.cmd = 1 then
              Call.pci_dma_read (dev.dma.config.txdesc.src &&& dev.dma.config.mask)
                (dev.dma.config.txdesc.dst - 0x10000) dev.dma.config.txdesc.len
            else
              Call.pci_dma_write (dev.dma.config.txdesc.dst &&& dev.dma.config.mask)
                (dev.dma.config.txdesc.src - 0x10000) dev.dma.config.txdesc.len,
            if dev.pci_dev.msi_enabled then Call.msi_notify 0 else Call.pci_set_irq 1] ∧
      (pciemu_dma_execute (with_bus_status dev r2 w2)).pci_dev.calls =
        (pciemu_dma_execute (with_bus_status dev r1 w1)).pci_dev.calls ∧
      (pciemu_dma_execute (with_bus_status dev r2 w2)).dma.config =
        (pciemu_dma_execute (with_bus_status dev r1 w1)).dma.config ∧
      (pciemu_dma_execute (with_bus_status dev r2 w2)).dma.status =
        (pciemu_dma_execute (with_bus_status dev r1 w1)).dma.status ∧
      (pciemu_dma_execute (with_bus_status dev r2 w2)).irq =
        (pciemu_dma_execute (with_bus_status dev r1 w1)).irq ∧
      (pciemu_dma_execute (with_bus_status dev r1 w1)).irq = (pciemu_irq_raise dev 0).irq := by
  rcases h with ⟨hcmd, hlo, hhi⟩ | ⟨hcmd, hlo, hhi⟩
  · have hin := (pciemu_dma_inside_device_boundaries_iff _).2 ⟨hlo, hhi⟩
    obtain ⟨a1, a2, a3, a4⟩ := execute_to_frame (with_bus_status dev r1 w1) hcmd hin
    obtain ⟨b1, b2, b3, b4⟩ := execute_to_frame (with_bus_status dev r2 w2) hcmd hin
    rw [a1, a2, a3, a4, b1, b2, b3, b4]
    cases hm : dev.pci_dev.msi_enabled <;>
      simp [with_bus_status, hcmd, hm, raise_calls]
  · have hin := (pciemu_dma_inside_device_boundaries_iff _).2 ⟨hlo, hhi⟩
    obtain ⟨a1, a2, a3, a4⟩ := execute_from_frame (with_bus_status dev r1 w1) hcmd hin
    obtain ⟨b1, b2, b3, b4⟩ := execute_from_frame (with_bus_status dev r2 w2) hcmd hin
    rw [a1, a2, a3, a4, b1, b2, b3, b4]
    cases hm : dev.pci_dev.msi_enabled <;>
      simp [with_bus_status, hcmd, hm, raise_calls]

/-! ### The interrupt controller -/

/-- C17. In message mode (`msi_enabled` answers true), for every vector
`v < 32` and every prior state, the flag of `v` already raised or not,
`pciemu_irq_raise(dev, v)` leaves the flag of `v` true, leaves the other 31
flags as they were, and adds exactly one call to the journal,
`msi_notify(v)`.  The pin flag, the DMA engine and the registers are
unchanged. -/
theorem pciemu_irq_raise_message_mode (dev : PCIEMUDevice) (v : Nat)
    (hm : dev.pci_dev.msi_enabled = true) (hv : v < 32) :
    ((pciemu_irq_raise dev v).irq.msi.msi_vectors ⟨v, hv⟩).raised = true ∧
      (∀ j : Fin PCIEMU_IRQ_MAX_VECTORS, j.val ≠ v →
        (pciemu_irq_raise dev v).irq.msi.msi_vectors j = dev.irq.msi.msi_vectors j) ∧
      (pciemu_irq_raise dev v).pci_dev.calls = dev.pci_dev.calls ++ [Call.msi_notify v] ∧
      (pciemu_irq_raise dev v).irq.pin = dev.irq.pin ∧
      (pciemu_irq_raise dev v).dma = dev.dma ∧
      (pciemu_irq_raise dev v).reg = dev.reg := by
  have hnv : ¬ v ≥ PCIEMU_IRQ_MAX_VECTORS := Nat.not_le.2 hv
  rw [pciemu_irq_raise_eq]
  refine ⟨?_, fun j hj => ?_, ?_, ?_, rfl, rfl⟩
  · simp [raise_irq, hm, hnv]
  · have hne : j ≠ ⟨v, hv⟩ := fun e => hj (congrArg Fin.val e)
    simp [raise_irq, hm, hnv, Function.update, hne]
  · simp [raise_calls, hm, hnv]
  · simp [raise_irq, hm, hnv]

/-- C18. In message mode, for every vector `v ≥ 32` (32 itself included),
`pciemu_irq_raise(dev, v)` returns the device unchanged: no flag changes and
`msi_notify` is not called. -/
theorem pciemu_irq_raise_out_of_range (dev : PCIEMUDevice) (v : Nat)
    (hm : dev.pci_dev.msi_enabled = true) (hv : 32 ≤ v) :
    pciemu_irq_raise dev v = dev := by
  have hge : v ≥ PCIEMU_IRQ_MAX_VECTORS := hv
  unfold pciemu_irq_raise pciemu_irq_raise_msi
  simp [msi_enabled, hm, hge]

/-- C19. In message mode `pciemu_irq_lower(dev, v)` makes no call to the host
(the host side of the device is unchanged); for `v ≥ 32` it returns the device
unchanged; for `v < 32` it leaves the flag of `v` false and every other flag
as it was; and applying it twice gives the same device as applying it once. -/
theorem pciemu_irq_lower_message_mode (dev : PCIEMUDevice) (v : Nat)
    (hm : dev.pci_dev.msi_enabled = true) :
    (pciemu_irq_lower dev v).pci_dev = dev.pci_dev ∧
      (32 ≤ v → pciemu_irq_lower dev v = dev) ∧
      (∀ hv : v < 32,
        ((pciemu_irq_lower dev v).irq.msi.msi_vectors ⟨v, hv⟩).raised = false ∧
          ∀ j : Fin PCIEMU_IRQ_MAX_VECTORS, j.val ≠ v →
            (pciemu_irq_lower dev v).irq.msi.msi_vectors j = dev.irq.msi.msi_vectors j) ∧
      pciemu_irq_lower (pciemu_irq_lower dev v) v = pciemu_irq_lower dev v := by
  have hcalls : (pciemu_irq_lower dev v).pci_dev = dev.pci_dev := by
    rw [pciemu_irq_lower_eq]
    obtain ⟨⟨me, mi, mem, rr, wr, calls, log, ro, bh⟩, irq, dma, reg⟩ := dev
    simp only at hm
    simp [lower_calls, hm]
  have hm2 : (pciemu_irq_lower dev v).pci_dev.msi_enabled = true := by rw [hcalls, hm]
  refine ⟨hcalls, fun hv => ?_, fun hv => ?_, ?_⟩
  · have hge : v ≥ PCIEMU_IRQ_MAX_VECTORS := hv
    unfold pciemu_irq_lower pciemu_irq_lower_msi
    simp [msi_enabled, hm, hge]
  · have hnv : ¬ v ≥ PCIEMU_IRQ_MAX_VECTORS := Nat.not_le.2 hv
    rw [pciemu_irq_lower_eq]
    simp only [lower_irq, hm, if_true, hnv, dite_false]
    refine ⟨by simp, fun j hj => ?_⟩
    have hne : j ≠ ⟨v, hv⟩ := fun e => hj (congrArg Fin.val e)
    simp [Function.update, hne]
  · rw [pciemu_irq_lower_eq (pciemu_irq_lower dev v) v, hm2]
    rw [pciemu_irq_lower_eq dev v, hm]
    by_cases hge : v ≥ PCIEMU_IRQ_MAX_VECTORS <;> simp [lower_irq, lower_calls, hge]

/-- C20. In pin mode (`msi_enabled` answers false) the vector is ignored, values
of 32 and more included.  For all vectors `v` and `w`: `pciemu_irq_raise(dev, v)`
is `pciemu_irq_raise(dev, w)`; raise followed by lower leaves the pin flag
false and adds exactly two calls to the journal, `pci_set_irq(1)` then
`pci_set_irq(0)`; and lower alone, from any pin state, leaves the pin flag
false and adds exactly one call, `pci_set_irq(0)`. -/
theorem pciemu_irq_pin_mode (dev : PCIEMUDevice) (v w : Nat)
    (hm : dev.pci_dev.msi_enabled = false) :
    pciemu_irq_raise dev v = pciemu_irq_raise dev w ∧
      pciemu_irq_lower dev v = pciemu_irq_lower dev w ∧
      (pciemu_irq_lower (pciemu_irq_raise dev v) w).irq.pin.raised = false ∧
      (pciemu_irq_lower (pciemu_irq_raise dev v) w).pci_dev.calls =
        dev.pci_dev.calls ++ [Call.pci_set_irq 1, Call.pci_set_irq 0] ∧
      (pciemu_irq_lower dev w).irq.pin.raised = false ∧
      (pciemu_irq_lower dev w).pci_dev.calls = dev.pci_dev.calls ++ [Call.pci_set_irq 0] := by
  have hr : ∀ x, pciemu_irq_raise dev x = pciemu_irq_raise_intx dev := fun x => by
    unfold pciemu_irq_raise
    simp [msi_enabled, hm]
  have hl : ∀ (d : PCIEMUDevice), d.pci_dev.msi_enabled = false →
      ∀ x, pciemu_irq_lower d x = pciemu_irq_lower_intx d := fun d hd x => by
    unfold pciemu_irq_lower
    simp [msi_enabled, hd]
  have hm2 : (pciemu_irq_raise_intx dev).pci_dev.msi_enabled = false := hm
  rw [hr v, hr w, hl dev hm v, hl dev hm w, hl _ hm2 w]
  refine ⟨rfl, rfl, rfl, ?_, rfl, rfl⟩
  simp [pciemu_irq_lower_intx, pciemu_irq_raise_intx, pci_set_irq, PCIDevice.journal]

/-! ### Summaries of one operation, for every device -/

/-- What a caller may rely on after `pciemu_dma_execute`, whatever the
configuration: either nothing but the log changed, or one bus transfer was
journalled, followed by the calls of `pciemu_irq_raise(dev, 0)`. -/
theorem execute_summary (dev : PCIEMUDevice) :
    (pciemu_dma_execute dev).pci_dev.msi_enabled = dev.pci_dev.msi_enabled ∧
      (pciemu_dma_execute dev).dma.config = dev.dma.config ∧
      (pciemu_dma_execute dev).dma.status = dev.dma.status ∧
      (((pciemu_dma_execute dev).irq = dev.irq ∧
          (pciemu_dma_execute dev).pci_dev.calls = dev.pci_dev.calls) ∨
        ((pciemu_dma_execute dev).irq = raise_irq dev.pci_dev.msi_enabled dev.irq 0 ∧
          ∃ c, is_transfer c = true ∧
            (pciemu_dma_execute dev).pci_dev.calls =
              dev.pci_dev.calls ++ c :: raise_calls dev.pci_dev.msi_enabled 0)) := by
  by_cases h1 : dev.dma.config.cmd = PCIEMU_HW_DMA_DIRECTION_TO_DEVICE
  · cases hin : pciemu_dma_inside_device_boundaries dev.dma.config.txdesc.dst
    · have e : pciemu_dma_execute dev = qemu_log_mask dev LogLine.dst_out_of_bounds := by
        unfold pciemu_dma_execute
        simp [h1, hin]
      rw [e]
      exact ⟨rfl, rfl, rfl, Or.inl ⟨rfl, rfl⟩⟩
    · rw [execute_to_unfold dev h1 hin]
      simp only [pciemu_irq_raise_fields, pciemu_dma_addr_mask_fields, pci_dma_read_fields]
      by_cases herr : dev.pci_dev.dma_read_ret
          (dev.dma.config.txdesc.src &&& dev.dma.config.mask) dev.dma.config.txdesc.len = 0 <;>
        simp [herr, is_transfer]
  · by_cases h2 : dev.dma.config.cmd = PCIEMU_HW_DMA_DIRECTION_FROM_DEVICE
    · cases hin : pciemu_dma_inside_device_boundaries dev.dma.config.txdesc.src
      · have e : pciemu_dma_execute dev = qemu_log_mask dev LogLine.src_out_of_bounds := by
          unfold pciemu_dma_execute
          simp [h2, hin]
        rw [e]
        exact ⟨rfl, rfl, rfl, Or.inl ⟨rfl, rfl⟩⟩
      · rw [execute_from_unfold dev h2 hin]
        simp only [pciemu_irq_raise_fields, pciemu_dma_addr_mask_fields, pci_dma_write_fields]
        by_cases herr : dev.pci_dev.dma_write_ret
            (dev.dma.config.txdesc.dst &&& dev.dma.config.mask) dev.dma.config.txdesc.len = 0 <;>
          simp [herr, is_transfer]
    · have e : pciemu_dma_execute dev = dev := by
        unfold pciemu_dma_execute
        simp [h1, h2]
      rw [e]
      exact ⟨rfl, rfl, rfl, Or.inl ⟨rfl, rfl⟩⟩

theorem doorbell_summary (dev : PCIEMUDevice) :
    (pciemu_dma_doorbell_ring dev).pci_dev.msi_enabled = dev.pci_dev.msi_enabled ∧
      (pciemu_dma_doorbell_ring dev).dma.config = dev.dma.config ∧
      (dev.dma.status ≠ DMA_STATUS_EXECUTING →
        (pciemu_dma_doorbell_ring dev).dma.status = DMA_STATUS_IDLE) ∧
      (dev.dma.status = DMA_STATUS_EXECUTING → pciemu_dma_doorbell_ring dev = dev) ∧
      (((pciemu_dma_doorbell_ring dev).irq = dev.irq ∧
          (pciemu_dma_doorbell_ring dev).pci_dev.calls = dev.pci_dev.calls) ∨
        ((pciemu_dma_doorbell_ring dev).irq = raise_irq dev.pci_dev.msi_enabled dev.irq 0 ∧
          ∃ c, is_transfer c = true ∧
            (pciemu_dma_doorbell_ring dev).pci_dev.calls =
              dev.pci_dev.calls ++ c :: raise_calls dev.pci_dev.msi_enabled 0)) := by
  obtain ⟨p, irq, ⟨config, status, buff⟩, reg⟩ := dev
  by_cases hst : status = DMA_STATUS_EXECUTING
  · subst hst
    have e : pciemu_dma_doorbell_ring ⟨p, irq, ⟨config, DMA_STATUS_EXECUTING, buff⟩, reg⟩ =
        ⟨p, irq, ⟨config, DMA_STATUS_EXECUTING, buff⟩, reg⟩ := rfl
    rw [e]
    exact ⟨rfl, rfl, fun h => absurd rfl h, fun _ => rfl, Or.inl ⟨rfl, rfl⟩⟩
  · have hx : pciemu_dma_doorbell_ring ⟨p, irq, ⟨config, status, buff⟩, reg⟩ =
        { pciemu_dma_execute ⟨p, irq,
            ⟨config, if status = DMA_STATUS_IDLE then DMA_STATUS_EXECUTING else status, buff⟩,
            reg⟩
          with dma := { (pciemu_dma_execute ⟨p, irq,
            ⟨config, if status = DMA_STATUS_IDLE then DMA_STATUS_EXECUTING else status, buff⟩,
            reg⟩).dma with status := DMA_STATUS_IDLE } } := by
      unfold pciemu_dma_doorbell_ring
      simp only [qatomic_cmpxchg, hst, if_false]
    obtain ⟨a1, a2, -, a5⟩ := execute_summary ⟨p, irq,
      ⟨config, if status = DMA_STATUS_IDLE then DMA_STATUS_EXECUTING else status, buff⟩, reg⟩
    rw [hx]
    exact ⟨a1, a2, fun _ => rfl, fun h => absurd h hst, a5⟩

theorem mmio_write_cases (dev : PCIEMUDevice) (addr val size : Nat) :
    pciemu_mmio_write dev addr val size = dev ∨
      (∃ i, pciemu_mmio_write dev addr val size = set_reg dev i val) ∨
      pciemu_mmio_write dev addr val size = pciemu_irq_raise dev 0 ∨
      pciemu_mmio_write dev addr val size = pciemu_irq_lower dev 0 ∨
      pciemu_mmio_write dev addr val size = pciemu_dma_config_txdesc_src dev val ∨
      pciemu_mmio_write dev addr val size = pciemu_dma_config_txdesc_dst dev val ∨
      pciemu_mmio_write dev addr val size = pciemu_dma_config_txdesc_len dev val ∨
      pciemu_mmio_write dev addr val size = pciemu_dma_config_cmd dev val ∨
      pciemu_mmio_write dev addr val size = pciemu_dma_doorbell_ring dev := by
  by_cases a0 : addr = 0x00
  · subst a0; exact Or.inr (Or.inl ⟨0, rfl⟩)
  by_cases a1 : addr = 0x08
  · subst a1; exact Or.inr (Or.inl ⟨1, rfl⟩)
  by_cases a2 : addr = 0x10
  · subst a2; exact Or.inr (Or.inl ⟨2, rfl⟩)
  by_cases a3 : addr = 0x18
  · subst a3; exact Or.inr (Or.inl ⟨3, rfl⟩)
  by_cases a4 : addr = 0x20
  · subst a4; exact Or.inr (Or.inr (Or.inl rfl))
  by_cases a5 : addr = 0x28
  · subst a5; exact Or.inr (Or.inr (Or.inr (Or.inl rfl)))
  by_cases a6 : addr = 0x30
  · subst a6; exact Or.inr (Or.inr (Or.inr (Or.inr (Or.inl rfl))))
  by_cases a7 : addr = 0x38
  · subst a7; exact Or.inr (Or.inr (Or.inr (Or.inr (Or.inr (Or.inl rfl)))))
  by_cases a8 : addr = 0x40
  · subst a8; exact Or.inr (Or.inr (Or.inr (Or.inr (Or.inr (Or.inr (Or.inl rfl))))))
  by_cases a9 : addr = 0x48
  · subst a9
    exact Or.inr (Or.inr (Or.inr (Or.inr (Or.inr (Or.inr (Or.inr (Or.inl rfl)))))))
  by_cases a10 : addr = 0x50
  · subst a10
    exact Or.inr (Or.inr (Or.inr (Or.inr (Or.inr (Or.inr (Or.inr (Or.inr rfl)))))))
  refine Or.inl ?_
  unfold pciemu_mmio_write
  simp only [a0, a1, a2, a3, a4, a5, a6, a7, a8, a9, a10, if_false]
  split <;> rfl

/-- The configuration functions change nothing but the DMA configuration, and
in it nothing but the transfer descriptor and the command. -/
theorem config_frame (dev : PCIEMUDevice) (val : Nat) (w : PCIEMUDevice)
    (h : w = pciemu_dma_config_txdesc_src dev val ∨ w = pciemu_dma_config_txdesc_dst dev val ∨
      w = pciemu_dma_config_txdesc_len dev val ∨ w = pciemu_dma_config_cmd dev val) :
    w.pci_dev = dev.pci_dev ∧ w.irq = dev.irq ∧ w.reg = dev.reg ∧
      w.dma.status = dev.dma.status ∧ w.dma.config.mask = dev.dma.config.mask ∧
      w.dma.buff = dev.dma.buff := by
  rcases h with h | h | h | h <;> subst h
  · unfold pciemu_dma_config_txdesc_src
    by_cases hs : dev.dma.status = DMA_STATUS_IDLE
    · rw [if_pos hs]; exact ⟨rfl, rfl, rfl, rfl, rfl, rfl⟩
    · rw [if_neg hs]; exact ⟨rfl, rfl, rfl, rfl, rfl, rfl⟩
  · unfold pciemu_dma_config_txdesc_dst
    by_cases hs : dev.dma.status = DMA_STATUS_IDLE
    · rw [if_pos hs]; exact ⟨rfl, rfl, rfl, rfl, rfl, rfl⟩
    · rw [if_neg hs]; exact ⟨rfl, rfl, rfl, rfl, rfl, rfl⟩
  · unfold pciemu_dma_config_txdesc_len
    by_cases hs : dev.dma.status = DMA_STATUS_IDLE
    · rw [if_pos hs]; exact ⟨rfl, rfl, rfl, rfl, rfl, rfl⟩
    · rw [if_neg hs]; exact ⟨rfl, rfl, rfl, rfl, rfl, rfl⟩
  · unfold pciemu_dma_config_cmd
    by_cases hs : dev.dma.status = DMA_STATUS_IDLE
    · rw [if_pos hs]; exact ⟨rfl, rfl, rfl, rfl, rfl, rfl⟩
    · rw [if_neg hs]; exact ⟨rfl, rfl, rfl, rfl, rfl, rfl⟩

theorem notify_in_raise_calls (m : Bool) (v : Nat)
    (h : Call.msi_notify v ∈ raise_calls m 0) : v = 0 := by
  cases m <;> simp [raise_calls] at h
  exact h

theorem notify_not_in_lower_calls (m : Bool) (v : Nat) :
    Call.msi_notify v ∉ lower_calls m := by
  cases m <;> simp [lower_calls]

theorem pciemu_device_reset_fields (dev : PCIEMUDevice) :
    (pciemu_device_reset dev).pci_dev = (pciemu_irq_lower dev 0).pci_dev ∧
      (pciemu_device_reset dev).irq = (pciemu_irq_lower dev 0).irq ∧
      (pciemu_device_reset dev).dma.config.mask = dev.dma.config.mask ∧
      (pciemu_device_reset dev).dma.status = DMA_STATUS_IDLE := by
  rw [pciemu_device_reset, pciemu_reset, pciemu_mmio_reset_eq, pciemu_irq_reset_eq]
  refine ⟨rfl, rfl, ?_, rfl⟩
  show (pciemu_irq_lower dev 0).dma.config.mask = dev.dma.config.mask
  rw [(pciemu_irq_lower_fields dev 0).2.1]

theorem pciemu_device_fini_fields (dev : PCIEMUDevice) :
    (pciemu_device_fini dev).pci_dev = (pciemu_irq_lower dev 0).pci_dev.journal Call.msi_uninit ∧
      (pciemu_device_fini dev).irq = (pciemu_irq_lower dev 0).irq ∧
      (pciemu_device_fini dev).dma.config.mask = dev.dma.config.mask ∧
      (pciemu_device_fini dev).dma.status = DMA_STATUS_OFF := by
  rw [pciemu_device_fini, pciemu_mmio_fini, pciemu_mmio_reset_eq, pciemu_irq_fini,
    pciemu_irq_reset_eq]
  refine ⟨rfl, rfl, ?_, rfl⟩
  show (pciemu_irq_lower dev 0).dma.config.mask = dev.dma.config.mask
  rw [(pciemu_irq_lower_fields dev 0).2.1]

/-- What every operation of a sequence guarantees: the answer of the host to
`msi_enabled` and the mask are kept, a status other than Executing is never
turned into Executing, the interrupt state is kept or is the one a raise or a
lower of vector 0 leaves, and every `msi_notify` among the calls added to the
journal is for vector 0. -/
theorem step_summary (dev : PCIEMUDevice) (o : Op) :
    (step dev o).pci_dev.msi_enabled = dev.pci_dev.msi_enabled ∧
      (step dev o).dma.config.mask = dev.dma.config.mask ∧
      (dev.dma.status ≠ DMA_STATUS_EXECUTING →
        (step dev o).dma.status ≠ DMA_STATUS_EXECUTING) ∧
      ((step dev o).irq = dev.irq ∨
        (step dev o).irq = raise_irq dev.pci_dev.msi_enabled dev.irq 0 ∨
        (step dev o).irq = lower_irq dev.pci_dev.msi_enabled dev.irq 0) ∧
      ∃ l, (step dev o).pci_dev.calls = dev.pci_dev.calls ++ l ∧
        ∀ v, Call.msi_notify v ∈ l → v = 0 := by
  cases o with
  | read addr size =>
    exact ⟨rfl, rfl, fun h => h, Or.inl rfl, [], by simp [step], fun v h => by simp at h⟩
  | reset =>
    obtain ⟨h1, h2, h3, h4⟩ := pciemu_device_reset_fields dev
    simp only [step]
    refine ⟨?_, h3, fun _ => by rw [h4]; decide, Or.inr (Or.inr ?_), lower_calls dev.pci_dev.msi_enabled,
      ?_, fun v h => absurd h (notify_not_in_lower_calls _ v)⟩
    · rw [h1]; simp
    · rw [h2]; simp
    · rw [h1]; simp
  | fini =>
    obtain ⟨h1, h2, h3, h4⟩ := pciemu_device_fini_fields dev
    simp only [step]
    refine ⟨?_, h3, fun _ => by rw [h4]; decide, Or.inr (Or.inr ?_),
      lower_calls dev.pci_dev.msi_enabled ++ [Call.msi_uninit], ?_, fun v h => ?_⟩
    · rw [h1]; simp [PCIDevice.journal]
    · rw [h2]; simp
    · rw [h1]; simp [PCIDevice.journal]
    · simp only [List.mem_append, List.mem_singleton] at h
      rcases h with h | h
      · exact absurd h (notify_not_in_lower_calls _ v)
      · cases h
  | write addr val size =>
    simp only [step]
    rcases mmio_write_cases dev addr val size with h | ⟨i, h⟩ | h | h | h | h | h | h | h
    · rw [h]
      exact ⟨rfl, rfl, fun h => h, Or.inl rfl, [], by simp, fun v h => by simp at h⟩
    · rw [h]
      exact ⟨rfl, rfl, fun h => h, Or.inl rfl, [], by simp [set_reg], fun v h => by simp at h⟩
    · rw [h]
      refine ⟨by simp, by simp, fun h => by simpa using h, Or.inr (Or.inl (by simp)),
        raise_calls dev.pci_dev.msi_enabled 0, by simp, fun v h => notify_in_raise_calls _ v h⟩
    · rw [h]
      refine ⟨by simp, by simp, fun h => by simpa using h, Or.inr (Or.inr (by simp)),
        lower_calls dev.pci_dev.msi_enabled, by simp,
        fun v h => absurd h (notify_not_in_lower_calls _ v)⟩
    · obtain ⟨b1, b2, -, b4, b5, -⟩ := config_frame dev val _ (Or.inl h)
      exact ⟨by rw [b1], b5, fun h => by rw [b4]; exact h, Or.inl b2, [], by rw [b1]; simp,
        fun v h => by simp at h⟩
    · obtain ⟨b1, b2, -, b4, b5, -⟩ := config_frame dev val _ (Or.inr (Or.inl h))
      exact ⟨by rw [b1], b5, fun h => by rw [b4]; exact h, Or.inl b2, [], by rw [b1]; simp,
        fun v h => by simp at h⟩
    · obtain ⟨b1, b2, -, b4, b5, -⟩ := config_frame dev val _ (Or.inr (Or.inr (Or.inl h)))
      exact ⟨by rw [b1], b5, fun h => by rw [b4]; exact h, Or.inl b2, [], by rw [b1]; simp,
        fun v h => by simp at h⟩
    · obtain ⟨b1, b2, -, b4, b5, -⟩ := config_frame dev val _ (Or.inr (Or.inr (Or.inr h)))
      exact ⟨by rw [b1], b5, fun h => by rw [b4]; exact h, Or.inl b2, [], by rw [b1]; simp,
        fun v h => by simp at h⟩
    · rw [h]
      obtain ⟨c1, c2, c4, c5, c6⟩ := doorbell_summary dev
      refine ⟨c1, by rw [c2], fun hs => by rw [c4 hs]; decide, ?_, ?_⟩
      · rcases c6 with ⟨e, -⟩ | ⟨e, -⟩
        · exact Or.inl e
        · exact Or.inr (Or.inl e)
      · rcases c6 with ⟨-, e⟩ | ⟨-, c, hc, e⟩
        · exact ⟨[], by rw [e]; simp, fun v h => by simp at h⟩
        · refine ⟨c :: raise_calls dev.pci_dev.msi_enabled 0, e, fun v h => ?_⟩
          rcases List.mem_cons.1 h with h | h
          · rw [← h] at hc; simp [is_transfer] at hc
          · exact notify_in_raise_calls _ v h

theorem irq_other_flags (m : Bool) (irq irq' : IRQStatus)
    (h : irq' = irq ∨ irq' = raise_irq m irq 0 ∨ irq' = lower_irq m irq 0)
    (j : Fin PCIEMU_IRQ_MAX_VECTORS) (hj : j ≠ 0) :
    irq'.msi.msi_vectors j = irq.msi.msi_vectors j := by
  rcases h with h | h | h <;> subst h
  · rfl
  · cases m
    · rfl
    · simp [raise_irq, Function.update, hj]
  · cases m
    · rfl
    · simp [lower_irq, Function.update, hj]

/-- The guarantees of `step_summary`, carried along a sequence of operations. -/
theorem run_summary (ops : List Op) : ∀ dev : PCIEMUDevice,
    (run dev ops).pci_dev.msi_enabled = dev.pci_dev.msi_enabled ∧
      (run dev ops).dma.config.mask = dev.dma.config.mask ∧
      (dev.dma.status ≠ DMA_STATUS_EXECUTING →
        (run dev ops).dma.status ≠ DMA_STATUS_EXECUTING) ∧
      (∀ j : Fin PCIEMU_IRQ_MAX_VECTORS, j ≠ 0 →
        (run dev ops).irq.msi.msi_vectors j = dev.irq.msi.msi_vectors j) ∧
      ∃ l, (run dev ops).pci_dev.calls = dev.pci_dev.calls ++ l ∧
        ∀ v, Call.msi_notify v ∈ l → v = 0 := by
  induction ops with
  | nil =>
    intro dev
    exact ⟨rfl, rfl, fun h => h, fun _ _ => rfl, [], by simp [run], fun v h => by simp at h⟩
  | cons o ops ih =>
    intro dev
    obtain ⟨s1, s2, s3, s4, l1, s5, s6⟩ := step_summary dev o
    obtain ⟨r1, r2, r3, r4, l2, r5, r6⟩ := ih (step dev o)
    simp only [run]
    refine ⟨r1.trans s1, r2.trans s2, fun h => r3 (s3 h), fun j hj => ?_, l1 ++ l2, ?_,
      fun v h => ?_⟩
    · rw [r4 j hj]
      exact irq_other_flags _ _ _ s4 j hj
    · rw [r5, s5, List.append_assoc]
    · rcases List.mem_append.1 h with h | h
      · exact s6 v h
      · exact r6 v h

/-! ### Reset, finalisation, mask and delivery mode -/

/-- C21. `pciemu_irq_reset` is exactly `pciemu_irq_lower(dev, 0)`, in either
mode.  In pin mode it leaves the pin flag false and adds the one call
`pci_set_irq(0)` to the journal; in message mode it leaves the flag of vector
0 false, leaves the flags of vectors 1..31 as they were, and makes no call to
the host (so no notify). -/
theorem pciemu_irq_reset_is_lower_zero (dev : PCIEMUDevice) :
    pciemu_irq_reset dev = pciemu_irq_lower dev 0 ∧
      (dev.pci_dev.msi_enabled = false →
        (pciemu_irq_reset dev).irq.pin.raised = false ∧
          (pciemu_irq_reset dev).pci_dev.calls = dev.pci_dev.calls ++ [Call.pci_set_irq 0]) ∧
      (dev.pci_dev.msi_enabled = true →
        ((pciemu_irq_reset dev).irq.msi.msi_vectors 0).raised = false ∧
          (∀ j : Fin PCIEMU_IRQ_MAX_VECTORS, j ≠ 0 →
            (pciemu_irq_reset dev).irq.msi.msi_vectors j = dev.irq.msi.msi_vectors j) ∧
          (pciemu_irq_reset dev).pci_dev.calls = dev.pci_dev.calls) := by
  refine ⟨rfl, fun hm => ?_, fun hm => ?_⟩
  · rw [pciemu_irq_reset_eq]
    simp [hm, lower_irq, lower_calls]
  · rw [pciemu_irq_reset_eq]
    refine ⟨by simp [hm, lower_irq], fun j hj => ?_, by simp [hm, lower_calls]⟩
    exact irq_other_flags true _ _ (Or.inr (Or.inr (by simp [hm]))) j hj

/-- C22. The mask is set by `pciemu_device_init` to `2^32 - 1`, and no operation
changes it: the four configuration functions (in any status), the doorbell,
the DMA and device resets, the DMA and device finalisations, every register
write, raise and lower leave `dma.config.mask` as it was (a register read
returns a value only), and so after every sequence of operations run on an
initialised device the mask is still `2^32 - 1`. -/
theorem pciemu_dma_mask_fixed (dev : PCIEMUDevice) (addr v size vector : Nat)
    (ops : List Op) :
    (pciemu_device_init dev).dma.config.mask = 2 ^ 32 - 1 ∧
      (pciemu_dma_config_txdesc_src dev v).dma.config.mask = dev.dma.config.mask ∧
      (pciemu_dma_config_txdesc_dst dev v).dma.config.mask = dev.dma.config.mask ∧
      (pciemu_dma_config_txdesc_len dev v).dma.config.mask = dev.dma.config.mask ∧
      (pciemu_dma_config_cmd dev v).dma.config.mask = dev.dma.config.mask ∧
      (pciemu_dma_doorbell_ring dev).dma.config.mask = dev.dma.config.mask ∧
      (pciemu_dma_reset dev).dma.config.mask = dev.dma.config.mask ∧
      (pciemu_device_reset dev).dma.config.mask = dev.dma.config.mask ∧
      (pciemu_dma_fini dev).dma.config.mask = dev.dma.config.mask ∧
      (pciemu_device_fini dev).dma.config.mask = dev.dma.config.mask ∧
      (pciemu_mmio_write dev addr v size).dma.config.mask = dev.dma.config.mask ∧
      (pciemu_irq_raise dev vector).dma.config.mask = dev.dma.config.mask ∧
      (pciemu_irq_lower dev vector).dma.config.mask = dev.dma.config.mask ∧
      (run (pciemu_device_init dev) ops).dma.config.mask = 2 ^ 32 - 1 := by
  have hinit : (pciemu_device_init dev).dma.config.mask = 2 ^ 32 - 1 := by
    rw [pciemu_device_init_dma]
  refine ⟨hinit, (config_frame dev v _ (Or.inl rfl)).2.2.2.2.1,
    (config_frame dev v _ (Or.inr (Or.inl rfl))).2.2.2.2.1,
    (config_frame dev v _ (Or.inr (Or.inr (Or.inl rfl)))).2.2.2.2.1,
    (config_frame dev v _ (Or.inr (Or.inr (Or.inr rfl)))).2.2.2.2.1, ?_, rfl,
    (pciemu_device_reset_fields dev).2.2.1, rfl, (pciemu_device_fini_fields dev).2.2.1,
    (step_summary dev (Op.write addr v size)).2.1, ?_, ?_, ?_⟩
  · rw [(doorbell_summary dev).2.1]
  · rw [(pciemu_irq_raise_fields dev vector).2.1]
  · rw [(pciemu_irq_lower_fields dev vector).2.1]
  · rw [(run_summary ops (pciemu_device_init dev)).2.1, hinit]

/-- C23. From every device state, `pciemu_dma_fini` yields the state
`pciemu_dma_reset` yields with the status replaced by Off: `src`, `dst`, `len`
and `cmd` are 0, the 4096 buffer bytes are 0, the mask is unchanged and the
status is Off. -/
theorem pciemu_dma_fini_yields (dev : PCIEMUDevice) :
    pciemu_dma_fini dev =
        { pciemu_dma_reset dev with
          dma := { (pciemu_dma_reset dev).dma with status := DMA_STATUS_OFF } } ∧
      (pciemu_dma_fini dev).dma.config.txdesc.src = 0 ∧
      (pciemu_dma_fini dev).dma.config.txdesc.dst = 0 ∧
      (pciemu_dma_fini dev).dma.config.txdesc.len = 0 ∧
      (pciemu_dma_fini dev).dma.config.cmd = 0 ∧
      (∀ k, (pciemu_dma_fini dev).dma.buff k = 0) ∧
      (pciemu_dma_fini dev).dma.config.mask = dev.dma.config.mask ∧
      (pciemu_dma_fini dev).dma.status = DMA_STATUS_OFF :=
  ⟨rfl, rfl, rfl, rfl, rfl, fun _ => rfl, rfl, rfl⟩

/-- C24, as stated, fails.  On one initialised device the first raise, made
while the host answers that message interrupts are not enabled, acts on the
pin (pin flag set, `pci_set_irq(1)`); after the host has changed its answer,
the next raise acts on the message vectors (flag of vector 0 set,
`msi_notify(0)`) and the next lower leaves the raised pin as it is: raise and
lower ask the host on every call. -/
theorem irq_mode_follows_host_answer :
    dev_pin_raised.irq.pin.raised = true ∧
      (dev_pin_raised.irq.msi.msi_vectors 0).raised = false ∧
      ((pciemu_irq_raise (host_answers dev_pin_raised true) 0).irq.msi.msi_vectors 0).raised =
        true ∧
      (pciemu_irq_raise (host_answers dev_pin_raised true) 0).pci_dev.calls =
        (pciemu_device_init dev0).pci_dev.calls ++ [Call.pci_set_irq 1, Call.msi_notify 0] ∧
      (pciemu_irq_lower (host_answers dev_pin_raised true) 0).irq.pin.raised = true :=
  ⟨rfl, rfl, rfl, rfl, rfl⟩

/-- C24, amended.  The device stores no delivery mode: every raise and every
lower acts on the variant that the host's answer to `msi_enabled` selects at
the time of the call.  When the answer is false they act on the pin: raise
sets the pin flag and calls `pci_set_irq(1)`, lower clears it and calls
`pci_set_irq(0)`, and the message vectors are left alone.  When the answer is
true they act on the message vectors: for `v < 32` raise sets the flag of `v`
and calls `msi_notify(v)`, lower clears the flag of `v` without a call, the
other flags are kept, for `v ≥ 32` both return the device unchanged, and the
pin is left alone.  No raise, lower, register write (doorbells included) or
device reset changes the answer, and so after every sequence of register
reads, register writes and device resets (the sequence `ops` with its
finalisations left out) the answer is the one the sequence started with. -/
theorem irq_mode_is_host_answer (dev : PCIEMUDevice) (v addr val size : Nat)
    (ops : List Op) :
    (dev.pci_dev.msi_enabled = false →
        (pciemu_irq_raise dev v).irq.pin.raised = true ∧
          (pciemu_irq_raise dev v).irq.msi = dev.irq.msi ∧
          (pciemu_irq_raise dev v).pci_dev.calls = dev.pci_dev.calls ++ [Call.pci_set_irq 1] ∧
          (pciemu_irq_lower dev v).irq.pin.raised = false ∧
          (pciemu_irq_lower dev v).irq.msi = dev.irq.msi ∧
          (pciemu_irq_lower dev v).pci_dev.calls = dev.pci_dev.calls ++ [Call.pci_set_irq 0]) ∧
      (dev.pci_dev.msi_enabled = true →
        (pciemu_irq_raise dev v).irq.pin = dev.irq.pin ∧
          (pciemu_irq_lower dev v).irq.pin = dev.irq.pin ∧
          (∀ hv : v < 32,
            ((pciemu_irq_raise dev v).irq.msi.msi_vectors ⟨v, hv⟩).raised = true ∧
              (pciemu_irq_raise dev v).pci_dev.calls =
                dev.pci_dev.calls ++ [Call.msi_notify v] ∧
              ((pciemu_irq_lower dev v).irq.msi.msi_vectors ⟨v, hv⟩).raised = false ∧
              (pciemu_irq_lower dev v).pci_dev.calls = dev.pci_dev.calls ∧
              ∀ j : Fin PCIEMU_IRQ_MAX_VECTORS, j.val ≠ v →
                (pciemu_irq_raise dev v).irq.msi.msi_vectors j = dev.irq.msi.msi_vectors j ∧
                  (pciemu_irq_lower dev v).irq.msi.msi_vectors j =
                    dev.irq.msi.msi_vectors j) ∧
          (32 ≤ v → pciemu_irq_raise dev v = dev ∧ pciemu_irq_lower dev v = dev)) ∧
      (pciemu_irq_raise dev v).pci_dev.msi_enabled = dev.pci_dev.msi_enabled ∧
      (pciemu_irq_lower dev v).pci_dev.msi_enabled = dev.pci_dev.msi_enabled ∧
      (pciemu_mmio_write dev addr val size).pci_dev.msi_enabled = dev.pci_dev.msi_enabled ∧
      (pciemu_device_reset dev).pci_dev.msi_enabled = dev.pci_dev.msi_enabled ∧
      (run dev (ops.filter (fun o => o != Op.fini))).pci_dev.msi_enabled =
        dev.pci_dev.msi_enabled := by
  refine ⟨fun hm => ?_, fun hm => ⟨?_, ?_, fun hv => ?_, fun hv => ?_⟩, by simp, by simp,
    (step_summary dev (Op.write addr val size)).1, (step_summary dev Op.reset).1,
    (run_summary _ dev).1⟩
  · simp [hm, raise_irq, lower_irq, raise_calls, lower_calls]
  · by_cases hv : v ≥ PCIEMU_IRQ_MAX_VECTORS <;> simp [hm, raise_irq, hv]
  · by_cases hv : v ≥ PCIEMU_IRQ_MAX_VECTORS <;> simp [hm, lower_irq, hv]
  · have hnv : ¬ v ≥ PCIEMU_IRQ_MAX_VECTORS := Nat.not_le.2 hv
    refine ⟨by simp [hm, raise_irq, hnv], by simp [hm, raise_calls, hnv],
      by simp [hm, lower_irq, hnv], by simp [hm, lower_calls], fun j hj => ?_⟩
    have hne : j ≠ ⟨v, hv⟩ := fun e => hj (congrArg Fin.val e)
    simp [hm, raise_irq, lower_irq, hnv, Function.update, hne]
  · have hge : v ≥ PCIEMU_IRQ_MAX_VECTORS := hv
    constructor
    · unfold pciemu_irq_raise pciemu_irq_raise_msi
      simp [msi_enabled, hm, hge]
    · unfold pciemu_irq_lower pciemu_irq_lower_msi
      simp [msi_enabled, hm, hge]

/-! ### Sequences of operations -/

/-- C29. Only vector 0 is ever raised.  In message mode, from a state whose 32
raised flags are false, after every finite sequence of operations (register
reads and writes, doorbells included, and device resets; the finalisation may
occur as well) the flags of vectors 1..31 are still false and every
`msi_notify` added to the journal is for vector 0; a device reset then leaves
all 32 flags false. -/
theorem only_vector_zero_raised (dev : PCIEMUDevice) (ops : List Op)
    (hm : dev.pci_dev.msi_enabled = true)
    (h0 : ∀ j, (dev.irq.msi.msi_vectors j).raised = false) :
    (∀ j : Fin PCIEMU_IRQ_MAX_VECTORS, j ≠ 0 →
        ((run dev ops).irq.msi.msi_vectors j).raised = false) ∧
      (∃ l, (run dev ops).pci_dev.calls = dev.pci_dev.calls ++ l ∧
        ∀ v, Call.msi_notify v ∈ l → v = 0) ∧
      ∀ j, ((pciemu_device_reset (run dev ops)).irq.msi.msi_vectors j).raised = false := by
  obtain ⟨r1, -, -, r4, r5⟩ := run_summary ops dev
  have hfl : ∀ j : Fin PCIEMU_IRQ_MAX_VECTORS, j ≠ 0 →
      ((run dev ops).irq.msi.msi_vectors j).raised = false := fun j hj => by
    rw [r4 j hj]; exact h0 j
  refine ⟨hfl, r5, fun j => ?_⟩
  rw [(pciemu_device_reset_fields _).2.1, (pciemu_irq_lower_fields _ 0).1, r1, hm]
  by_cases hj : j = 0
  · subst hj
    simp [lower_irq]
  · rw [irq_other_flags true _ _ (Or.inr (Or.inr rfl)) j hj]
    exact hfl j hj

/-- C30. Executing is never a resting state.  After `pciemu_device_init`, and
after every finite sequence of operations run one at a time to completion
(register reads and writes, doorbells included, device reset, finalisation),
the DMA status is Idle or Off, never Executing; so no configuration write and
no doorbell of such a sequence finds the status Executing. -/
theorem status_never_rests_executing (dev : PCIEMUDevice) (ops : List Op) :
    (pciemu_device_init dev).dma.status = DMA_STATUS_IDLE ∧
      ((run (pciemu_device_init dev) ops).dma.status = DMA_STATUS_IDLE ∨
        (run (pciemu_device_init dev) ops).dma.status = DMA_STATUS_OFF) ∧
      (run (pciemu_device_init dev) ops).dma.status ≠ DMA_STATUS_EXECUTING := by
  have hinit : (pciemu_device_init dev).dma.status = DMA_STATUS_IDLE := by
    rw [pciemu_device_init_dma]
  have hne : (run (pciemu_device_init dev) ops).dma.status ≠ DMA_STATUS_EXECUTING :=
    (run_summary ops (pciemu_device_init dev)).2.2.1 (by rw [hinit]; decide)
  refine ⟨hinit, ?_, hne⟩
  cases hs : (run (pciemu_device_init dev) ops).dma.status
  · exact Or.inl rfl
  · exact absurd hs hne
  · exact Or.inr rfl

/-! ### Address masking and the buffer window -/

theorem DMA_BIT_MASK_eq (n : Nat) (h : n ≤ 64) : DMA_BIT_MASK n = 2 ^ n - 1 := by
  unfold DMA_BIT_MASK
  by_cases h64 : n = 64
  · subst h64; rfl
  · have hlt : n < 64 := lt_of_le_of_ne h h64
    have hp : 2 ^ n < 2 ^ 64 := Nat.pow_lt_pow_right (by decide) hlt
    have hpos : 0 < 2 ^ n := Nat.two_pow_pos n
    rw [if_neg h64, Nat.mod_eq_of_lt hp]
    have e : 2 ^ n + 2 ^ 64 - 1 = (2 ^ n - 1) + 2 ^ 64 := by omega
    rw [e, Nat.add_mod_right, Nat.mod_eq_of_lt (by omega)]

/-- C28. Address masking is exact modular arithmetic.  For every capability
width `n ≤ 64`, `DMA_BIT_MASK(n)` is `2^n - 1` (for `n = 64` the all-ones
value, the shift not being evaluated), and for every address `a`,
`pciemu_dma_addr_mask` with that mask returns `a mod 2^n`, whether or not the
masking changed the value (the two cases differ in the log only). -/
theorem pciemu_dma_addr_mask_mod (dev : PCIEMUDevice) (a n : Nat) (h : n ≤ 64)
    (hmask : dev.dma.config.mask = DMA_BIT_MASK n) :
    DMA_BIT_MASK n = 2 ^ n - 1 ∧ DMA_BIT_MASK 64 = 0xFFFFFFFFFFFFFFFF ∧
      (pciemu_dma_addr_mask dev a).2 = a % 2 ^ n ∧
      (pciemu_dma_addr_mask dev a).1.dma = dev.dma ∧
      (pciemu_dma_addr_mask dev a).1.irq = dev.irq ∧
      (pciemu_dma_addr_mask dev a).1.reg = dev.reg ∧
      (pciemu_dma_addr_mask dev a).1.pci_dev.calls = dev.pci_dev.calls := by
  refine ⟨DMA_BIT_MASK_eq n h, rfl, ?_, by simp, by simp, by simp, by simp⟩
  rw [(pciemu_dma_addr_mask_fields dev a).1, hmask, DMA_BIT_MASK_eq n h,
    Nat.and_pow_two_sub_one_eq_mod]

/-- C27, the code run where the claim fails.  On an initialised device the
register writes `dst = 0x11000, len = 1, cmd = 1` and the doorbell make
`pciemu_dma_execute` call `pci_dma_read` with buffer offset 4096 and length 1;
`dst = 0x10000, len = 0x2000` gives offset 0 and length 8192; and
`src = 0x11000, len = 1, cmd = 2` gives a `pci_dma_write` from offset 4096.
In each case offset + length exceeds the 4096 bytes of the buffer. -/
theorem pciemu_dma_execute_leaves_buffer :
    ((dma_transfer (pciemu_device_init dev0) 0xDEADBEEF 0x11000 1 1).pci_dev.calls =
        (pciemu_device_init dev0).pci_dev.calls ++
          [Call.pci_dma_read 0xDEADBEEF 4096 1, Call.msi_notify 0] ∧ ¬ (4096 + 1 ≤ 4096)) ∧
      ((dma_transfer (pciemu_device_init dev0) 0xDEADBEEF 0x10000 0x2000 1).pci_dev.calls =
        (pciemu_device_init dev0).pci_dev.calls ++
          [Call.pci_dma_read 0xDEADBEEF 0 8192, Call.msi_notify 0] ∧ ¬ (0 + 8192 ≤ 4096)) ∧
      ((dma_transfer (pciemu_device_init dev0) 0x11000 0xDEADBEEF 1 2).pci_dev.calls =
        (pciemu_device_init dev0).pci_dev.calls ++
          [Call.pci_dma_write 0xDEADBEEF 4096 1, Call.msi_notify 0] ∧ ¬ (4096 + 1 ≤ 4096)) :=
  ⟨⟨rfl, by decide⟩, ⟨rfl, by decide⟩, ⟨rfl, by decide⟩⟩

/-! ### The round trip through the buffer -/

theorem dma_transfer_idle (dev : PCIEMUDevice) (src dst len cmd : Nat)
    (h : dev.dma.status = DMA_STATUS_IDLE) :
    dma_transfer dev src dst len cmd =
      pciemu_dma_doorbell_ring
        { dev with dma := { dev.dma with
            config := { txdesc := { src := src, dst := dst, len := len }, cmd := cmd,
                        mask := dev.dma.config.mask } } } := by
  obtain ⟨p, irq, ⟨⟨t, c, m⟩, status, buff⟩, reg⟩ := dev
  simp only at h
  subst h
  rfl

theorem doorbell_ring_to_host (dev : PCIEMUDevice)
    (hst : dev.dma.status ≠ DMA_STATUS_EXECUTING)
    (hcmd : dev.dma.config.cmd = PCIEMU_HW_DMA_DIRECTION_TO_DEVICE)
    (hin : pciemu_dma_inside_device_boundaries dev.dma.config.txdesc.dst = true) :
    (pciemu_dma_doorbell_ring dev).pci_dev.mem = dev.pci_dev.mem ∧
      (pciemu_dma_doorbell_ring dev).pci_dev.dma_write_ret = dev.pci_dev.dma_write_ret := by
  obtain ⟨p, irq, ⟨config, status, buff⟩, reg⟩ := dev
  simp only at hst hcmd hin ⊢
  have hx : pciemu_dma_doorbell_ring ⟨p, irq, ⟨config, status, buff⟩, reg⟩ =
      { pciemu_dma_execute ⟨p, irq,
          ⟨config, if status = DMA_STATUS_IDLE then DMA_STATUS_EXECUTING else status, buff⟩, reg⟩
        with dma := { (pciemu_dma_execute ⟨p, irq,
          ⟨config, if status = DMA_STATUS_IDLE then DMA_STATUS_EXECUTING else status, buff⟩,
          reg⟩).dma with status := DMA_STATUS_IDLE } } := by
    unfold pciemu_dma_doorbell_ring
    simp only [qatomic_cmpxchg, hst, if_false]
  rw [hx, execute_to_unfold ⟨p, irq,
    ⟨config, if status = DMA_STATUS_IDLE then DMA_STATUS_EXECUTING else status, buff⟩, reg⟩
    hcmd hin]
  simp only [pciemu_irq_raise_fields, pciemu_dma_addr_mask_fields, pci_dma_read_fields]
  by_cases herr : p.dma_read_ret (config.txdesc.src &&& config.mask) config.txdesc.len = 0 <;>
    simp [herr]

theorem doorbell_ring_from_fields (dev : PCIEMUDevice)
    (hst : dev.dma.status ≠ DMA_STATUS_EXECUTING)
    (hcmd : dev.dma.config.cmd = PCIEMU_HW_DMA_DIRECTION_FROM_DEVICE)
    (hin : pciemu_dma_inside_device_boundaries dev.dma.config.txdesc.src = true) :
    (pciemu_dma_doorbell_ring dev).pci_dev.mem =
      (fun a =>
        if (dev.dma.config.txdesc.dst &&& dev.dma.config.mask) ≤ a ∧
            a < (dev.dma.config.txdesc.dst &&& dev.dma.config.mask) +
              dev.dma.config.txdesc.len then
          match buff_at dev.dma.buff
              (dev.dma.config.txdesc.src - PCIEMU_HW_DMA_AREA_START +
                (a - (dev.dma.config.txdesc.dst &&& dev.dma.config.mask))) with
          | some v => v
          | none =>
            dev.pci_dev.behind
              (dev.dma.config.txdesc.src - PCIEMU_HW_DMA_AREA_START +
                (a - (dev.dma.config.txdesc.dst &&& dev.dma.config.mask)))
        else dev.pci_dev.mem a) := by
  obtain ⟨p, irq, ⟨config, status, buff⟩, reg⟩ := dev
  simp only at hst hcmd hin ⊢
  have hx : pciemu_dma_doorbell_ring ⟨p, irq, ⟨config, status, buff⟩, reg⟩ =
      { pciemu_dma_execute ⟨p, irq,
          ⟨config, if status = DMA_STATUS_IDLE then DMA_STATUS_EXECUTING else status, buff⟩, reg⟩
        with dma := { (pciemu_dma_execute ⟨p, irq,
          ⟨config, if status = DMA_STATUS_IDLE then DMA_STATUS_EXECUTING else status, buff⟩,
          reg⟩).dma with status := DMA_STATUS_IDLE } } := by
    unfold pciemu_dma_doorbell_ring
    simp only [qatomic_cmpxchg, hst, if_false]
  rw [hx, execute_from_unfold ⟨p, irq,
    ⟨config, if status = DMA_STATUS_IDLE then DMA_STATUS_EXECUTING else status, buff⟩, reg⟩
    hcmd hin]
  simp only [pciemu_irq_raise_fields, pciemu_dma_addr_mask_fields, pci_dma_write_fields]
  by_cases herr : p.dma_write_ret (config.txdesc.dst &&& config.mask) config.txdesc.len = 0 <;>
    simp [herr]

/-- C25. The round trip through the device buffer.  Take an Idle device, a
buffer offset `k` and a length `L` with `k + L ≤ 4096`, and bus addresses `A`
and `B` that the mask leaves unchanged.  Run a to-device transfer
(`src = A`, `dst = 0x10000 + k`, `len = L`, `cmd = 1`, doorbell) and then a
from-device transfer (`src = 0x10000 + k`, `dst = B`, `len = L`, `cmd = 2`,
doorbell), both reported as successful by the host.  After the first transfer
the buffer bytes `k .. k + L - 1` hold the bytes the bus held at
`A .. A + L - 1`, and after the second the bus holds those bytes at
`B .. B + L - 1`. -/
theorem dma_round_trip (dev : PCIEMUDevice) (A B k L : Nat)
    (hidle : dev.dma.status = DMA_STATUS_IDLE) (hk : k + L ≤ 4096)
    (hA : A &&& dev.dma.config.mask = A) (hB : B &&& dev.dma.config.mask = B)
    (hr : dev.pci_dev.dma_read_ret A L = 0) (hw : dev.pci_dev.dma_write_ret B L = 0) :
    ∀ i (hi : i < L),
      (dma_transfer dev A (0x10000 + k) L 1).dma.buff
          ⟨k + i, Nat.lt_of_lt_of_le (Nat.add_lt_add_left hi k) hk⟩ =
        dev.pci_dev.mem (A + i) ∧
      (dma_transfer (dma_transfer dev A (0x10000 + k) L 1) (0x10000 + k) B L 2).pci_dev.mem
          (B + i) =
        dev.pci_dev.mem (A + i) := by
  intro i hi
  have _ := hr
  have _ := hw
  have hin : pciemu_dma_inside_device_boundaries (0x10000 + k) = true :=
    (pciemu_dma_inside_device_boundaries_iff _).2 ⟨by omega, by omega⟩
  have hstA : dev.dma.status ≠ DMA_STATUS_EXECUTING := by rw [hidle]; decide
  have hoff : 0x10000 + k - PCIEMU_HW_DMA_AREA_START = k := Nat.add_sub_cancel_left 0x10000 k
  have hlt : k + i < PCIEMU_HW_DMA_AREA_SIZE :=
    Nat.lt_of_lt_of_le (Nat.add_lt_add_left hi k) hk
  -- the first transfer
  have e1 := dma_transfer_idle dev A (0x10000 + k) L 1 hidle
  obtain ⟨-, -, a3, a4, a5⟩ := doorbell_ring_to_fields
    { dev with dma := { dev.dma with
        config := { txdesc := { src := A, dst := 0x10000 + k, len := L }, cmd := 1,
                    mask := dev.dma.config.mask } } } hstA rfl hin
  obtain ⟨m1, -⟩ := doorbell_ring_to_host
    { dev with dma := { dev.dma with
        config := { txdesc := { src := A, dst := 0x10000 + k, len := L }, cmd := 1,
                    mask := dev.dma.config.mask } } } hstA rfl hin
  rw [← e1] at a3 a4 a5 m1
  simp only [hoff, hA] at a5
  have hbuf : (dma_transfer dev A (0x10000 + k) L 1).dma.buff ⟨k + i, hlt⟩ =
      dev.pci_dev.mem (A + i) := by
    rw [a5]
    have hc : k ≤ k + i ∧ k + i < k + L := ⟨Nat.le_add_right k i, Nat.add_lt_add_left hi k⟩
    simp only [hc, and_self, if_true, Nat.add_sub_cancel_left]
  refine ⟨hbuf, ?_⟩
  -- the second transfer
  have hmask : (dma_transfer dev A (0x10000 + k) L 1).dma.config.mask = dev.dma.config.mask := by
    rw [a4]
  clear a4 a5 e1
  generalize dma_transfer dev A (0x10000 + k) L 1 = d1 at a3 m1 hbuf hmask ⊢
  have hstB : d1.dma.status ≠ DMA_STATUS_EXECUTING := by rw [a3]; decide
  have b := doorbell_ring_from_fields
    { d1 with dma := { d1.dma with
        config := { txdesc := { src := 0x10000 + k, dst := B, len := L }, cmd := 2,
                    mask := d1.dma.config.mask } } }
    hstB rfl hin
  rw [← dma_transfer_idle d1 (0x10000 + k) B L 2 a3] at b
  simp only [hmask, hB, hoff, m1] at b
  rw [b]
  have hc : B ≤ B + i ∧ B + i < B + L := ⟨Nat.le_add_right B i, Nat.add_lt_add_left hi B⟩
  simp only [hc, and_self, if_true, Nat.add_sub_cancel_left, buff_at, hlt, dif_pos]
  exact hbuf

/-! ### Two doorbells that overlap -/

theorem ring_split (dev : PCIEMUDevice) :
    pciemu_dma_doorbell_ring dev = ring_rest (ring_begin dev).1 (ring_begin dev).2 := rfl

/-- C26. Two doorbell rings that overlap, on an Idle device.  The call whose
compare-and-swap comes first finds Idle and stores Executing.  Until its last
statement stores Idle the status stays Executing (`pciemu_dma_execute` does
not write it), so a second call that starts in between, before the execute or
after it, finds Executing: its compare-and-swap changes nothing, the rest of
it returns the device it is given, and the whole second call is a no-op.  The
first call then completes, and the two calls together leave exactly the device
one call leaves: the journal is the one of a single `pciemu_dma_execute`, and
for an in-window transfer it gains exactly one bus transfer followed by the one
call that raising vector 0 makes. -/
theorem two_overlapping_rings (dev : PCIEMUDevice)
    (h : dev.dma.status = DMA_STATUS_IDLE) :
    pciemu_dma_doorbell_ring dev = ring_rest (ring_begin dev).1 (ring_begin dev).2 ∧
      (ring_begin dev).2 = DMA_STATUS_IDLE ∧
      (ring_begin dev).1.dma.status = DMA_STATUS_EXECUTING ∧
      (pciemu_dma_execute (ring_begin dev).1).dma.status = DMA_STATUS_EXECUTING ∧
      ring_begin (ring_begin dev).1 = ((ring_begin dev).1, DMA_STATUS_EXECUTING) ∧
      ring_begin (pciemu_dma_execute (ring_begin dev).1) =
        (pciemu_dma_execute (ring_begin dev).1, DMA_STATUS_EXECUTING) ∧
      (∀ d, ring_rest d DMA_STATUS_EXECUTING = d) ∧
      pciemu_dma_doorbell_ring (ring_begin dev).1 = (ring_begin dev).1 ∧
      pciemu_dma_doorbell_ring (pciemu_dma_execute (ring_begin dev).1) =
        pciemu_dma_execute (ring_begin dev).1 ∧
      ring_rest (pciemu_dma_doorbell_ring (ring_begin dev).1) (ring_begin dev).2 =
        pciemu_dma_doorbell_ring dev ∧
      ring_store (pciemu_dma_doorbell_ring (pciemu_dma_execute (ring_begin dev).1)) =
        pciemu_dma_doorbell_ring dev ∧
      (pciemu_dma_doorbell_ring dev).pci_dev.calls =
        (pciemu_dma_execute (ring_begin dev).1).pci_dev.calls ∧
      (((dev.dma.config.cmd = 1 ∧ 0x10000 ≤ dev.dma.config.txdesc.dst ∧
            dev.dma.config.txdesc.dst ≤ 0x11000) ∨
          (dev.dma.config.cmd = 2 ∧ 0x10000 ≤ dev.dma.config.txdesc.src ∧
            dev.dma.config.txdesc.src ≤ 0x11000)) →
        (pciemu_dma_doorbell_ring dev).pci_dev.calls =
          dev.pci_dev.calls ++
            [if dev.dma.config.cmd = 1 then
                Call.pci_dma_read (dev.dma.config.txdesc.src &&& dev.dma.config.mask)
                  (dev.dma.config.txdesc.dst - 0x10000) dev.dma.config.txdesc.len
              else
                Call.pci_dma_write (dev.dma.config.txdesc.dst &&& dev.dma.config.mask)
                  (dev.dma.config.txdesc.src - 0x10000) dev.dma.config.txdesc.len,
              if dev.pci_dev.msi_enabled then Call.msi_notify 0 else Call.pci_set_irq 1]) := by
  obtain ⟨p, irq, ⟨config, status, buff⟩, reg⟩ := dev
  simp only at h
  subst h
  have hb : ring_begin ⟨p, irq, ⟨config, DMA_STATUS_IDLE, buff⟩, reg⟩ =
      (⟨p, irq, ⟨config, DMA_STATUS_EXECUTING, buff⟩, reg⟩, DMA_STATUS_IDLE) := rfl
  have hd : pciemu_dma_doorbell_ring ⟨p, irq, ⟨config, DMA_STATUS_IDLE, buff⟩, reg⟩ =
      ring_store (pciemu_dma_execute ⟨p, irq, ⟨config, DMA_STATUS_EXECUTING, buff⟩, reg⟩) := rfl
  have hex : (pciemu_dma_execute ⟨p, irq, ⟨config, DMA_STATUS_EXECUTING, buff⟩, reg⟩).dma.status =
      DMA_STATUS_EXECUTING :=
    (execute_summary ⟨p, irq, ⟨config, DMA_STATUS_EXECUTING, buff⟩, reg⟩).2.2.1
  have h2 : pciemu_dma_doorbell_ring
      (pciemu_dma_execute ⟨p, irq, ⟨config, DMA_STATUS_EXECUTING, buff⟩, reg⟩) =
      pciemu_dma_execute ⟨p, irq, ⟨config, DMA_STATUS_EXECUTING, buff⟩, reg⟩ :=
    (doorbell_summary _).2.2.2.1 hex
  have hb2 : ring_begin (pciemu_dma_execute ⟨p, irq, ⟨config, DMA_STATUS_EXECUTING, buff⟩, reg⟩) =
      (pciemu_dma_execute ⟨p, irq, ⟨config, DMA_STATUS_EXECUTING, buff⟩, reg⟩,
        DMA_STATUS_EXECUTING) := by
    generalize pciemu_dma_execute ⟨p, irq, ⟨config, DMA_STATUS_EXECUTING, buff⟩, reg⟩ = d at hex
    obtain ⟨p', irq', ⟨config', status', buff'⟩, reg'⟩ := d
    simp only at hex
    subst hex
    rfl
  rw [hb]
  refine ⟨rfl, rfl, rfl, hex, rfl, hb2, fun d => rfl, rfl, h2, rfl, ?_, rfl, fun hw => ?_⟩
  · rw [h2, hd]
  · rw [hd]
    show (pciemu_dma_execute ⟨p, irq, ⟨config, DMA_STATUS_EXECUTING, buff⟩, reg⟩).pci_dev.calls = _
    rcases hw with ⟨hcmd, hlo, hhi⟩ | ⟨hcmd, hlo, hhi⟩
    · have hin := (pciemu_dma_inside_device_boundaries_iff _).2 ⟨hlo, hhi⟩
      rw [(execute_to_frame ⟨p, irq, ⟨config, DMA_STATUS_EXECUTING, buff⟩, reg⟩ hcmd hin).1]
      simp only at hcmd
      cases hm : p.msi_enabled <;> simp [hcmd, hm, raise_calls]
    · have hin := (pciemu_dma_inside_device_boundaries_iff _).2 ⟨hlo, hhi⟩
      rw [(execute_from_frame ⟨p, irq, ⟨config, DMA_STATUS_EXECUTING, buff⟩, reg⟩ hcmd hin).1]
      simp only at hcmd
      cases hm : p.msi_enabled <;> simp [hcmd, hm, raise_calls]

/-! ### The theorems applied to concrete devices -/

theorem end_to_end_message_mode_witness :
    (pciemu_device_init dev0).pci_dev.msi_enabled = true ∧
      (end_to_end_writes (pciemu_device_init dev0) 0 8 8 8 8 8).pci_dev.calls =
        [Call.pci_config_set_interrupt_pin 1, Call.msi_init 1, Call.memory_region_init,
          Call.pci_register_bar 0, Call.pci_dma_read 0xDEADBEEF 0 4, Call.msi_notify 0] ∧
      (end_to_end_writes (pciemu_device_init dev0) 0 8 8 8 8 8).dma.status =
        DMA_STATUS_IDLE :=
  ⟨rfl, (end_to_end_message_mode dev0 0 8 8 8 8 8 rfl).2.2.1,
    (end_to_end_message_mode dev0 0 8 8 8 8 8 rfl).2.2.2.2.1⟩

theorem pciemu_dma_execute_to_device_witness :
    dev_to.dma.config.cmd = 1 ∧ 0x10000 ≤ dev_to.dma.config.txdesc.dst ∧
      dev_to.dma.config.txdesc.dst ≤ 0x11000 ∧
      (pciemu_dma_execute dev_to).pci_dev.calls =
        [Call.pci_dma_read 0xbeefbeef 0 8, Call.msi_notify 0] ∧
      (pciemu_dma_execute dev_to).reg = dev_to.reg :=
  ⟨rfl, by decide, by decide,
    (pciemu_dma_execute_to_device dev_to rfl (by decide) (by decide)).1,
    (pciemu_dma_execute_to_device dev_to rfl (by decide) (by decide)).2.2.2.2.2.1⟩

theorem pciemu_dma_execute_from_device_witness :
    dev_from.dma.config.cmd = 2 ∧ 0x10000 ≤ dev_from.dma.config.txdesc.src ∧
      dev_from.dma.config.txdesc.src ≤ 0x11000 ∧
      (pciemu_dma_execute dev_from).pci_dev.calls =
        [Call.pci_dma_write 0xaaaabbbb 0x10 8, Call.pci_set_irq 1] :=
  ⟨rfl, by decide, by decide,
    (pciemu_dma_execute_from_device dev_from rfl (by decide) (by decide)).1⟩

theorem pciemu_dma_execute_inert_witness :
    (dev_oob.dma.config.cmd = 1 ∧ 0x11000 < dev_oob.dma.config.txdesc.dst) ∧
      (pciemu_dma_execute dev_oob).pci_dev.calls = [] ∧
      (pciemu_dma_execute dev_oob).irq = dev_oob.irq :=
  ⟨⟨rfl, by decide⟩,
    (pciemu_dma_execute_inert dev_oob (Or.inr (Or.inl ⟨rfl, Or.inr (by decide)⟩))).1,
    (pciemu_dma_execute_inert dev_oob (Or.inr (Or.inl ⟨rfl, Or.inr (by decide)⟩))).2.2.1⟩

theorem pciemu_dma_doorbell_ring_idle_witness :
    dev_to.dma.status = DMA_STATUS_IDLE ∧
      (pciemu_dma_doorbell_ring dev_to).dma.status = DMA_STATUS_IDLE :=
  ⟨rfl, pciemu_dma_doorbell_ring_idle dev_to rfl⟩

theorem pciemu_dma_doorbell_ring_executing_witness :
    dev0.dma.status = DMA_STATUS_EXECUTING ∧ pciemu_dma_doorbell_ring dev0 = dev0 :=
  ⟨rfl, pciemu_dma_doorbell_ring_executing dev0 rfl⟩

theorem pciemu_mmio_write_config_idle_witness :
    dev_to.dma.status = DMA_STATUS_IDLE ∧
      (pciemu_mmio_write dev_to 0x40 0x1234 8).dma.config =
        { txdesc := { src := 0xaaaabeefbeef, dst := 0x10000, len := 0x1234 }, cmd := 1,
          mask := 0xffffffff } :=
  ⟨rfl, congrArg (fun d => d.dma.config)
    (pciemu_mmio_write_config_idle dev_to 0x1234 8 rfl).2.2.1⟩

theorem pciemu_dma_config_not_idle_witness :
    dev_off.dma.status = DMA_STATUS_OFF ∧ pciemu_dma_config_cmd dev_off 1 = dev_off ∧
      pciemu_mmio_write dev_off 0x30 7 8 = dev_off :=
  ⟨rfl, (pciemu_dma_config_not_idle dev_off 1 8 (Or.inr rfl)).2.2.2.1,
    (pciemu_dma_config_not_idle dev_off 7 8 (Or.inr rfl)).2.2.2.2.1⟩

theorem pciemu_mmio_read_table_witness :
    pciemu_mmio_read dev0 0x10 8 = 3 ∧ pciemu_mmio_read dev0 0x4c 8 = 0xFFFFFFFFFFFFFFFF :=
  ⟨(pciemu_mmio_read_table dev0 0x4c 8).1 2, (pciemu_mmio_read_table dev0 0x4c 8).2.1 (by decide)⟩

theorem pciemu_mmio_write_read_reg_witness :
    pciemu_mmio_read (pciemu_mmio_write dev0 0x08 0xbb 8) 0x08 4 = 0xbb ∧
      pciemu_mmio_read (pciemu_mmio_write dev0 0x08 0xbb 8) 0x18 4 = 4 :=
  ⟨(pciemu_mmio_write_read_reg dev0 1 0xbb 8 4).2.1,
    (pciemu_mmio_write_read_reg dev0 1 0xbb 8 4).2.2 3 (by decide)⟩

theorem pciemu_mmio_write_unmapped_witness :
    0x4c ∉ [0x00, 0x08, 0x10, 0x18, 0x20, 0x28, 0x30, 0x38, 0x40, 0x48, 0x50] ∧
      pciemu_mmio_write dev0 0x4c 7 8 = dev0 :=
  ⟨by decide, pciemu_mmio_write_unmapped dev0 0x4c 7 8 (by decide)⟩

theorem pciemu_mmio_config_write_only_witness :
    dev_to.dma.status = DMA_STATUS_IDLE ∧
      (pciemu_mmio_write dev_to 0x30 5 8).dma.config.txdesc.src = 5 ∧
      pciemu_mmio_read (pciemu_mmio_write dev_to 0x30 5 8) 0x30 8 = 0xFFFFFFFFFFFFFFFF :=
  ⟨rfl, (pciemu_mmio_config_write_only dev_to 5 8 8 rfl).1⟩

theorem pciemu_dma_execute_irq_any_bus_result_witness :
    (dev_to.dma.config.cmd = 1 ∧ 0x10000 ≤ dev_to.dma.config.txdesc.dst ∧
        dev_to.dma.config.txdesc.dst ≤ 0x11000) ∧
      (pciemu_dma_execute (with_bus_status dev_to (fun _ _ => 1) (fun _ _ => 1))).pci_dev.calls =
        (pciemu_dma_execute (with_bus_status dev_to (fun _ _ => 0) (fun _ _ => 0))).pci_dev.calls ∧
      (pciemu_dma_execute (with_bus_status dev_to (fun _ _ => 1) (fun _ _ => 1))).irq =
        (pciemu_dma_execute (with_bus_status dev_to (fun _ _ => 0) (fun _ _ => 0))).irq :=
  ⟨⟨rfl, by decide, by decide⟩,
    (pciemu_dma_execute_irq_any_bus_result dev_to (fun _ _ => 0) (fun _ _ => 0) (fun _ _ => 1)
      (fun _ _ => 1) (Or.inl ⟨rfl, by decide, by decide⟩)).2.1,
    (pciemu_dma_execute_irq_any_bus_result dev_to (fun _ _ => 0) (fun _ _ => 0) (fun _ _ => 1)
      (fun _ _ => 1) (Or.inl ⟨rfl, by decide, by decide⟩)).2.2.2.2.1⟩

theorem pciemu_irq_raise_message_mode_witness :
    dev_raised.pci_dev.msi_enabled = true ∧
      (dev_raised.irq.msi.msi_vectors 3).raised = true ∧
      ((pciemu_irq_raise dev_raised 3).irq.msi.msi_vectors 3).raised = true ∧
      (pciemu_irq_raise dev_raised 3).pci_dev.calls = [Call.msi_notify 3, Call.msi_notify 3] :=
  ⟨rfl, rfl, (pciemu_irq_raise_message_mode dev_raised 3 rfl (by decide)).1,
    (pciemu_irq_raise_message_mode dev_raised 3 rfl (by decide)).2.2.1⟩

theorem pciemu_irq_raise_out_of_range_witness :
    dev0.pci_dev.msi_enabled = true ∧ pciemu_irq_raise dev0 32 = dev0 :=
  ⟨rfl, pciemu_irq_raise_out_of_range dev0 32 rfl (by decide)⟩

theorem pciemu_irq_lower_message_mode_witness :
    dev_raised.pci_dev.msi_enabled = true ∧
      ((pciemu_irq_lower dev_raised 3).irq.msi.msi_vectors 3).raised = false ∧
      pciemu_irq_lower dev_raised 40 = dev_raised :=
  ⟨rfl, ((pciemu_irq_lower_message_mode dev_raised 3 rfl).2.2.1 (by decide)).1,
    (pciemu_irq_lower_message_mode dev_raised 40 rfl).2.1 (by decide)⟩

theorem pciemu_irq_pin_mode_witness :
    dev_from.pci_dev.msi_enabled = false ∧
      (pciemu_irq_lower (pciemu_irq_raise dev_from 40) 7).irq.pin.raised = false ∧
      (pciemu_irq_lower (pciemu_irq_raise dev_from 40) 7).pci_dev.calls =
        [Call.pci_set_irq 1, Call.pci_set_irq 0] :=
  ⟨rfl, (pciemu_irq_pin_mode dev_from 40 7 rfl).2.2.1, (pciemu_irq_pin_mode dev_from 40 7 rfl).2.2.2.1⟩

theorem pciemu_irq_reset_is_lower_zero_witness :
    dev_pin_raised.pci_dev.msi_enabled = false ∧ dev_pin_raised.irq.pin.raised = true ∧
      (pciemu_irq_reset dev_pin_raised).irq.pin.raised = false ∧
      dev_raised.pci_dev.msi_enabled = true ∧
      (pciemu_irq_reset dev_raised).irq.msi.msi_vectors 3 = dev_raised.irq.msi.msi_vectors 3 :=
  ⟨rfl, rfl, ((pciemu_irq_reset_is_lower_zero dev_pin_raised).2.1 rfl).1, rfl,
    ((pciemu_irq_reset_is_lower_zero dev_raised).2.2 rfl).2.1 3 (by decide)⟩

theorem irq_mode_is_host_answer_witness :
    dev0.pci_dev.msi_enabled = true ∧
      ((pciemu_irq_raise dev0 5).irq.msi.msi_vectors 5).raised = true ∧
      (pciemu_irq_raise dev0 5).pci_dev.calls = [Call.msi_notify 5] ∧
      dev_from.pci_dev.msi_enabled = false ∧
      (pciemu_irq_raise dev_from 5).irq.pin.raised = true ∧
      (pciemu_irq_raise dev_from 5).pci_dev.calls = [Call.pci_set_irq 1] ∧
      (run dev0 (ops0.filter (fun o => o != Op.fini))).pci_dev.msi_enabled = true :=
  ⟨rfl, (((irq_mode_is_host_answer dev0 5 0 0 8 ops0).2.1 rfl).2.2.1 (by decide)).1,
    (((irq_mode_is_host_answer dev0 5 0 0 8 ops0).2.1 rfl).2.2.1 (by decide)).2.1, rfl,
    ((irq_mode_is_host_answer dev_from 5 0 0 8 ops0).1 rfl).1,
    ((irq_mode_is_host_answer dev_from 5 0 0 8 ops0).1 rfl).2.2.1,
    (irq_mode_is_host_answer dev0 5 0 0 8 ops0).2.2.2.2.2.2⟩

theorem dma_round_trip_witness :
    dev_to.dma.status = DMA_STATUS_IDLE ∧ 16 + 4 ≤ 4096 ∧
      (dma_transfer (dma_transfer dev_to 0x1000 (0x10000 + 16) 4 1) (0x10000 + 16) 0x2000 4
        2).pci_dev.mem (0x2000 + 2) = 2 :=
  ⟨rfl, by decide,
    (dma_round_trip dev_to 0x1000 0x2000 16 4 rfl (by decide) rfl rfl rfl rfl 2 (by decide)).2⟩

theorem pciemu_dma_addr_mask_mod_witness :
    (pciemu_dma_addr_mask (dev_mask 32) 0xaaaaaaaabbbbbbbb).2 = 0xbbbbbbbb ∧
      (pciemu_dma_addr_mask (dev_mask 16) 0xaaaaaaaabbbbbbbb).2 = 0xbbbb ∧
      (pciemu_dma_addr_mask (dev_mask 64) 0xaaaaaaaabbbbbbbb).2 = 0xaaaaaaaabbbbbbbb :=
  ⟨(pciemu_dma_addr_mask_mod (dev_mask 32) 0xaaaaaaaabbbbbbbb 32 (by decide) rfl).2.2.1,
    (pciemu_dma_addr_mask_mod (dev_mask 16) 0xaaaaaaaabbbbbbbb 16 (by decide) rfl).2.2.1,
    (pciemu_dma_addr_mask_mod (dev_mask 64) 0xaaaaaaaabbbbbbbb 64 (by decide) rfl).2.2.1⟩

theorem only_vector_zero_raised_witness :
    dev0.pci_dev.msi_enabled = true ∧ (∀ j, (dev0.irq.msi.msi_vectors j).raised = false) ∧
      ((run dev0 ops0).irq.msi.msi_vectors 5).raised = false ∧
      ((pciemu_device_reset (run dev0 ops0)).irq.msi.msi_vectors 0).raised = false :=
  ⟨rfl, fun _ => rfl, (only_vector_zero_raised dev0 ops0 rfl (fun _ => rfl)).1 5 (by decide),
    (only_vector_zero_raised dev0 ops0 rfl (fun _ => rfl)).2.2 0⟩

theorem two_overlapping_rings_witness :
    dev_to.dma.status = DMA_STATUS_IDLE ∧
      (ring_begin dev_to).1.dma.status = DMA_STATUS_EXECUTING ∧
      pciemu_dma_doorbell_ring (ring_begin dev_to).1 = (ring_begin dev_to).1 ∧
      ring_rest (pciemu_dma_doorbell_ring (ring_begin dev_to).1) (ring_begin dev_to).2 =
        pciemu_dma_doorbell_ring dev_to ∧
      (pciemu_dma_doorbell_ring dev_to).pci_dev.calls =
        [Call.pci_dma_read 0xbeefbeef 0 8, Call.msi_notify 0] :=
  ⟨rfl, (two_overlapping_rings dev_to rfl).2.2.1,
    (two_overlapping_rings dev_to rfl).2.2.2.2.2.2.2.1,
    (two_overlapping_rings dev_to rfl).2.2.2.2.2.2.2.2.2.1,
    (two_overlapping_rings dev_to rfl).2.2.2.2.2.2.2.2.2.2.2.2
      (Or.inl ⟨rfl, by decide, by decide⟩)⟩

end Pciemu
